import Mathlib

set_option maxRecDepth 8000

/- Shallow embedding of the request/cache/fallback layer of the weather
dashboard (src/js/weather.js).  That file holds two concatenated versions of
the `WeatherAPI` class; the first one (lines 1-663) is the primary subject of
the claims and is embedded in full below.  The second version's `validateUrl`
(lines 988-1008) is embedded as `validateUrlV2`.

Modelling conventions: timestamps are integer milliseconds (`Date.now()` is an
explicit `now` argument), JS numbers are rationals, the wall-clock date read by
`new Date()` is an explicit `JsDate` argument, and the network is an explicit
oracle `String -> FetchOutcome`.  JS `Map` is an association list in insertion
order.  Errors are `{name, message}` records, as in JS. -/

/- String utilities, written by structural recursion on `List Char` so that
concrete runs reduce inside the kernel.  They mirror the JS string operations
used by the source (`includes`, `startsWith`, `endsWith`, `toLowerCase`,
`trim`). -/

def strLeads : List Char → List Char → Bool
  | [], _ => true
  | _ :: _, [] => false
  | a :: as, b :: bs => a = b && strLeads as bs

def listIncludes (sub : List Char) : List Char → Bool
  | [] => strLeads sub []
  | c :: t => strLeads sub (c :: t) || listIncludes sub t

def strIncludes (s sub : String) : Bool := listIncludes sub.data s.data

def strStarts (s pre : String) : Bool := strLeads pre.data s.data

def strEnds (s suf : String) : Bool := strLeads suf.data.reverse s.data.reverse

def strLower (s : String) : String := ⟨s.data.map Char.toLower⟩

def isJsSpace (c : Char) : Bool := c = ' ' || c = '\t' || c = '\n' || c = '\r'

def strTrim (s : String) : String :=
  ⟨((s.data.dropWhile isJsSpace).reverse.dropWhile isJsSpace).reverse⟩

/- First occurrence split: `splitFirstAux sep l = some (before, after)` when
`sep` occurs in `l`. -/
def splitFirstAux (sep : List Char) : List Char → Option (List Char × List Char)
  | [] => if sep.isEmpty then some ([], []) else none
  | c :: t =>
    if strLeads sep (c :: t) then some ([], (c :: t).drop sep.length)
    else match splitFirstAux sep t with
         | some (a, b) => some (c :: a, b)
         | none => none

/- A simplified model of the WHATWG `new URL(...)` parser: scheme, "://", then
the host up to the first '/', '?', '#' or ':' (port).  It is faithful on the
absolute http(s) URLs this client builds and checks; a relative URL (no "://")
yields `none`, matching the TypeError `new URL` raises without a base. -/
structure URLParts where
  protocol : String
  hostname : String
deriving DecidableEq

def parseURL (url : String) : Option URLParts :=
  match splitFirstAux "://".data url.data with
  | none => none
  | some (scheme, rest) =>
    if scheme.isEmpty then none
    else
      let host := rest.takeWhile (fun c => !(c = '/' || c = '?' || c = '#' || c = ':'))
      if host.isEmpty then none
      else some ⟨strLower ⟨scheme⟩ ++ ":", strLower ⟨host⟩⟩

/- `encodeURIComponent`: unreserved characters pass through, everything else is
percent-encoded from its UTF-8 bytes (uppercase hex, as in JS). -/
def hexChar (n : ℕ) : Char := if n < 10 then Char.ofNat (48 + n) else Char.ofNat (55 + n)

def utf8Units (n : ℕ) : List ℕ :=
  if n < 128 then [n]
  else if n < 2048 then [192 + n / 64, 128 + n % 64]
  else if n < 65536 then [224 + n / 4096, 128 + (n / 64) % 64, 128 + n % 64]
  else [240 + n / 262144, 128 + (n / 4096) % 64, 128 + (n / 64) % 64, 128 + n % 64]

def encodeChar (c : Char) : List Char :=
  if c.isAlphanum || [45, 95, 46, 33, 126, 42, 39, 40, 41].contains c.toNat then [c]
  else (utf8Units c.toNat).foldr (fun b acc => '%' :: hexChar (b / 16) :: hexChar (b % 16) :: acc) []

def encodeURIComponent (s : String) : String :=
  ⟨s.data.foldr (fun c acc => encodeChar c ++ acc) []⟩

/- JS errors are `{name, message}`; the source distinguishes them only by
these two fields (e.g. `error.name === 'AbortError'`, message prefixes). -/
structure JsError where
  name : String
  message : String
deriving DecidableEq

instance {e a : Type} [DecidableEq e] [DecidableEq a] : DecidableEq (Except e a) := fun x y =>
  match x, y with
  | Except.ok v, Except.ok w =>
    if h : v = w then Decidable.isTrue (by rw [h]) else Decidable.isFalse (by
      intro hc
      injection hc with hh
      exact h hh)
  | Except.error v, Except.error w =>
    if h : v = w then Decidable.isTrue (by rw [h]) else Decidable.isFalse (by
      intro hc
      injection hc with hh
      exact h hh)
  | Except.ok _, Except.error _ => Decidable.isFalse (by intro hc; exact Except.noConfusion hc)
  | Except.error _, Except.ok _ => Decidable.isFalse (by intro hc; exact Except.noConfusion hc)

def mkErr (n m : String) : JsError := { name := n, message := m }

/- Model of a settled `fetch(url)`: either a response object, an abort
(timeout), or a rejection (network failure).  `parseOk` says whether
`response.json()` succeeds; `errMessage` is the `.message` field of the parsed
error body (absent fields are `none`); `data` is the parsed payload, meaningful
when `ok && parseOk`. -/
structure RespModel (α : Type) where
  ok : Bool
  status : ℕ
  ctJson : Bool
  parseOk : Bool
  parseMsg : String
  errMessage : Option String
  data : α
deriving DecidableEq

inductive FetchOutcome (α : Type) where
  | resp (r : RespModel α)
  | abort
  | fail (msg : String)

/- Payload data model.  The claims depend on the coordinates, name and country
of a current-weather payload, on the `{current:{uvi}, simulated}` shape of the
UV payload, and on the city list shape of geocoding results; the rest of each
JSON payload is an opaque `payload` tag. -/
structure WeatherData where
  coordLat : ℚ
  coordLon : ℚ
  name : String
  country : String
  payload : ℕ
deriving DecidableEq

structure ForecastData where
  payload : ℕ
deriving DecidableEq

structure UVData where
  uvi : Option ℚ
  simulated : Bool
deriving DecidableEq

structure GeoCity where
  name : String
  country : String
  state : Option String
  lat : ℚ
  lon : ℚ
deriving DecidableEq

structure City where
  name : String
  country : String
  state : Option String
  lat : ℚ
  lon : ℚ
  display : String
deriving DecidableEq

/- The cache is dynamically typed in JS; a stored value is one of the payload
shapes the class ever stores. -/
inductive CacheData where
  | weather (w : WeatherData)
  | forecastD (f : ForecastData)
  | uv (u : UVData)
  | cities (cs : List City)
deriving DecidableEq

structure CacheEntry where
  data : CacheData
  timestamp : ℤ
deriving DecidableEq

abbrev Cache := List (String × CacheEntry)

/- JS `Map` primitives on the association list (insertion order preserved;
`set` of an existing key updates in place, of a new key appends). -/
def mapGet : Cache → String → Option CacheEntry
  | [], _ => none
  | (k', e) :: t, k => if k' = k then some e else mapGet t k

def mapSet : Cache → String → CacheEntry → Cache
  | [], k, e => [(k, e)]
  | (k', e') :: t, k, e => if k' = k then (k, e) :: t else (k', e') :: mapSet t k e

def mapDelete (m : Cache) (k : String) : Cache := m.filter (fun p => p.1 != k)

/- The mutable fields of the `WeatherAPI` instance, plus its configuration
(the constructor reads `window.CONFIG` once; `windowHostname` is the ambient
`window.location.hostname` used by the first validateUrl), plus `fetchLog`, a
ghost trace of the URLs actually passed to `fetch` (one entry per outbound
network request). -/
structure St where
  API_KEY : String
  BASE_URL : String
  GEOCODING_URL : String
  CACHE_DURATION : ℤ
  MAX_CACHE_SIZE : ℕ
  maxRequestsPerMinute : ℕ
  windowHostname : String
  cache : Cache
  requestCount : ℕ
  requestWindow : ℤ
  cacheHits : ℕ
  cacheMisses : ℕ
  lastSearchQuery : String
  lastSearchTime : ℤ
  lastSearchResults : List City
  fetchLog : List String
deriving DecidableEq

/- The wall-clock date as read by `new Date()` (only `getHours`/`getMonth` are
used by the source, but other fields are modelled so that independence from
them is a statement, not an artifact). -/
structure JsDate where
  year : ℤ
  month : ℤ
  day : ℤ
  hour : ℤ
  minute : ℤ
deriving DecidableEq

inductive Location where
  | city (c : String)
  | coords (lat lon : ℚ)

/- The combined snapshot assembled by getCompleteWeatherData (weather.js
lines 439-449): `{current, forecast, uvi, location:{name, country, lat, lon}}`.
Note the object has no `simulated` field. -/
structure CompleteWeather where
  current : WeatherData
  forecast : CacheData
  uvi : Option ℚ
  locName : String
  locCountry : String
  locLat : ℚ
  locLon : ℚ
deriving DecidableEq

/- The network environment for the orchestrator: oracles for the two endpoint
families it contacts, plus an optional injected UV failure modelling the
spec scenario in which the UV sub-request is forced to fail (the real
getUVIndex never performs a request and never rejects). -/
structure Env where
  current : String → FetchOutcome WeatherData
  forecast : String → FetchOutcome ForecastData
  uvFault : Option JsError

/- ===== CACHE MANAGEMENT (weather.js 63-155) ===== -/

/- getCacheKey: `type + "_" + identifier.toString().toLowerCase()`. -/
def getCacheKey (ty ident : String) : String := ty ++ "_" ++ strLower ident

/- Coordinate identifiers are the JS template `lat + "," + lon`; rationals are
rendered canonically as `num/den` (an injective stand-in for JS number
formatting; no claim depends on the exact digits). -/
def ratToStr (q : ℚ) : String := toString q.num ++ "/" ++ toString q.den

def coordIdent (lat lon : ℚ) : String := ratToStr lat ++ "," ++ ratToStr lon

/- isCacheValid: `cacheEntry && cacheEntry.timestamp && (now - timestamp < CACHE_DURATION)`
(a zero timestamp is falsy in JS, hence the explicit check). -/
def isCacheValid (s : St) (now : ℤ) : Option CacheEntry → Bool
  | some e => e.timestamp != 0 && decide (now - e.timestamp < s.CACHE_DURATION)
  | none => false

/- getCachedData (weather.js 83-98): on a valid entry, count a hit and return
its data; otherwise drop the stale entry (if any) and count a miss. -/
def getCachedData (s : St) (now : ℤ) (key : String) : Option CacheData × St :=
  match mapGet s.cache key with
  | some e =>
    if isCacheValid s now (some e) then
      (some e.data, { s with cacheHits := s.cacheHits + 1 })
    else
      (none, { s with cache := mapDelete s.cache key, cacheMisses := s.cacheMisses + 1 })
  | none => (none, { s with cacheMisses := s.cacheMisses + 1 })

/- evictOldestCacheEntry (weather.js 139-155): scan in iteration order keeping
the first entry with a strictly smaller timestamp; `if (oldestKey)` skips the
deletion when the found key is falsy (empty string) or the cache was empty. -/
def pickOlder (a b : String × CacheEntry) : String × CacheEntry :=
  if b.2.timestamp < a.2.timestamp then b else a

def findOldest : Cache → Option (String × CacheEntry)
  | [] => none
  | p :: t => some (t.foldl pickOlder p)

def evictOldestCacheEntry (s : St) : St :=
  match findOldest s.cache with
  | some p => if p.1 = "" then s else { s with cache := mapDelete s.cache p.1 }
  | none => s

/- setCachedData (weather.js 105-115). -/
def setCachedData (s : St) (now : ℤ) (key : String) (v : CacheData) : St :=
  let s₁ := if s.cache.length ≥ s.MAX_CACHE_SIZE then evictOldestCacheEntry s else s
  { s₁ with cache := mapSet s₁.cache key { data := v, timestamp := now } }

/- ===== RATE LIMITING (weather.js 603-620) ===== -/

def rateLimitMsg : String := "API rate limit reached. Please try again later."

def checkRateLimit (s : St) (now : ℤ) : Except JsError Unit × St :=
  let s₁ := if now - s.requestWindow > 60000 then
              { s with requestCount := 0, requestWindow := now }
            else s
  if s₁.requestCount ≥ s₁.maxRequestsPerMinute then
    (Except.error { name := "Error", message := rateLimitMsg }, s₁)
  else
    (Except.ok (), { s₁ with requestCount := s₁.requestCount + 1 })

/- ===== URL VALIDATION ===== -/

/- validateUrl of the first class (weather.js 627-655).  Note the structure of
the source: the hostname/suspicious-pattern throws happen inside the same
`try` whose `catch` turns every failure into `Invalid URL format` (or lets a
relative URL through). -/
def allowedHostsV1 (wh : String) : List String :=
  ["localhost", "127.0.0.1", "api.openweathermap.org", "openweathermap.org", wh]

def suspiciousPatterns : List String := ["../", "..%2f", "file:", "data:"]

def validateUrlV1 (wh url : String) : Except JsError Unit :=
  let inner : Except JsError Unit :=
    match parseURL url with
    | none => Except.error (mkErr "TypeError" "Invalid URL")
    | some u =>
      if !((allowedHostsV1 wh).any fun host =>
            u.hostname == host || strEnds u.hostname ("." ++ host)) then
        Except.error (mkErr "Error" "Invalid API URL hostname")
      else if suspiciousPatterns.any (fun p => strIncludes (strLower url) p) then
        Except.error (mkErr "Error" "Potentially unsafe URL detected")
      else Except.ok ()
  match inner with
  | Except.ok _ => Except.ok ()
  | Except.error _ =>
    if !(strStarts url "/") then
      Except.error (mkErr "Error" "Invalid URL format")
    else Except.ok ()

/- validateUrl of the second class (weather.js 988-1008): exact host match
against two hosts, then an https-only scheme check; the outer catch prefixes
every failure with `Invalid URL: `. -/
def validateUrlV2 (url : String) : Except JsError Unit :=
  let inner : Except JsError Unit :=
    match parseURL url with
    | none => Except.error (mkErr "TypeError" "Invalid URL")
    | some u =>
      if !(["api.openweathermap.org", "openweathermap.org"].contains u.hostname) then
        Except.error (mkErr "Error" "Invalid API endpoint")
      else if u.protocol != "https:" then
        Except.error (mkErr "Error" "Only HTTPS requests are allowed")
      else Except.ok ()
  match inner with
  | Except.ok _ => Except.ok ()
  | Except.error e => Except.error { name := "Error", message := "Invalid URL: " ++ e.message }

/- ===== API REQUEST HANDLING (weather.js 164-242) ===== -/

/- `errorData.message || fallback` (an empty string is falsy). -/
def jsOr (o : Option String) (d : String) : String :=
  match o with
  | some m => if m = "" then d else m
  | none => d

/- The body of makeRequest's `try` block.  Appending to `fetchLog` marks the
moment the outbound request is actually issued. -/
def makeRequestBody {α : Type} (fetch : String → FetchOutcome α) (s : St) (now : ℤ)
    (url : String) : Except JsError α × St :=
  match checkRateLimit s now with
  | (Except.error e, s₁) => (Except.error e, s₁)
  | (Except.ok _, s₁) =>
    match validateUrlV1 s₁.windowHostname url with
    | Except.error e => (Except.error e, s₁)
    | Except.ok _ =>
      if strIncludes url "openweathermap.org" &&
         (s₁.API_KEY == "" || s₁.API_KEY == "YOUR_API_KEY_HERE") then
        (Except.error (mkErr "Error" "API Key missing or invalid! Please update the API key in js/config.js"), s₁)
      else
        let s₂ := { s₁ with fetchLog := s₁.fetchLog ++ [url] }
        match fetch url with
        | FetchOutcome.abort =>
          (Except.error (mkErr "AbortError" "The user aborted a request."), s₂)
        | FetchOutcome.fail m => (Except.error { name := "TypeError", message := m }, s₂)
        | FetchOutcome.resp r =>
          if !r.ok then
            if !r.parseOk then
              (Except.error (mkErr "Error" ("HTTP error! status: " ++ toString r.status)), s₂)
            else if r.status = 401 then
              (Except.error (mkErr "Error" "Authentication failed: Invalid API key. Please update your API key in js/config.js"), s₂)
            else if r.status = 404 then
              (Except.error (mkErr "Error" "Location not found. Please check the city name and try again."), s₂)
            else if r.status = 429 then
              (Except.error (mkErr "Error" "API rate limit exceeded. Please try again later."), s₂)
            else
              (Except.error (mkErr "Error" (jsOr r.errMessage ("HTTP error! status: " ++ toString r.status))), s₂)
          else if !r.ctJson then
            (Except.error (mkErr "Error" "Invalid response format. Expected JSON."), s₂)
          else if !r.parseOk then
            (Except.error { name := "Error", message := r.parseMsg }, s₂)
          else (Except.ok r.data, s₂)

/- makeRequest's catch: AbortError becomes the timeout message, every other
failure is rethrown wrapped with the `Weather data request failed: ` prefix. -/
def makeRequest {α : Type} (fetch : String → FetchOutcome α) (s : St) (now : ℤ)
    (url : String) : Except JsError α × St :=
  match makeRequestBody fetch s now url with
  | (Except.ok a, s₁) => (Except.ok a, s₁)
  | (Except.error e, s₁) =>
    if e.name = "AbortError" then
      (Except.error (mkErr "Error" "Request timed out. Please check your connection and try again."), s₁)
    else
      (Except.error (mkErr "Error" ("Weather data request failed: " ++ e.message)), s₁)

/- ===== WEATHER DATA METHODS (weather.js 251-519) ===== -/

def currentUrl (s : St) (city : String) : String :=
  if strIncludes s.BASE_URL "openweathermap.org" then
    s.BASE_URL ++ "/weather?q=" ++ encodeURIComponent city ++ "&appid=" ++ s.API_KEY ++ "&units=metric"
  else
    s.BASE_URL ++ "/weather?city=" ++ encodeURIComponent city

def currentCoordsUrl (s : St) (lat lon : ℚ) : String :=
  if strIncludes s.BASE_URL "openweathermap.org" then
    s.BASE_URL ++ "/weather?lat=" ++ ratToStr lat ++ "&lon=" ++ ratToStr lon ++ "&appid=" ++ s.API_KEY ++ "&units=metric"
  else
    s.BASE_URL ++ "/weather?lat=" ++ ratToStr lat ++ "&lon=" ++ ratToStr lon

def forecastUrl (s : St) (city : String) : String :=
  if strIncludes s.BASE_URL "openweathermap.org" then
    s.BASE_URL ++ "/forecast?q=" ++ encodeURIComponent city ++ "&appid=" ++ s.API_KEY ++ "&units=metric"
  else
    s.BASE_URL ++ "/forecast?city=" ++ encodeURIComponent city

def forecastCoordsUrl (s : St) (lat lon : ℚ) : String :=
  if strIncludes s.BASE_URL "openweathermap.org" then
    s.BASE_URL ++ "/forecast?lat=" ++ ratToStr lat ++ "&lon=" ++ ratToStr lon ++ "&appid=" ++ s.API_KEY ++ "&units=metric"
  else
    s.BASE_URL ++ "/forecast?lat=" ++ ratToStr lat ++ "&lon=" ++ ratToStr lon

def cityUrl (s : St) (q : String) (limit : ℕ) : String :=
  if strIncludes s.GEOCODING_URL "openweathermap.org" then
    s.GEOCODING_URL ++ "/direct?q=" ++ encodeURIComponent q ++ "&limit=" ++ toString limit ++ "&appid=" ++ s.API_KEY
  else
    s.GEOCODING_URL ++ "/geocoding?q=" ++ encodeURIComponent q ++ "&limit=" ++ toString limit

/- getCurrentWeather (weather.js 251-273).  The JS cache is untyped, so a hit
returns whatever `CacheData` is stored under the key. -/
def getCurrentWeather (fetch : String → FetchOutcome WeatherData) (s : St) (now : ℤ)
    (city : String) : Except JsError CacheData × St :=
  let key := getCacheKey "current" city
  match getCachedData s now key with
  | (some cd, s₁) => (Except.ok cd, s₁)
  | (none, s₁) =>
    match makeRequest fetch s₁ now (currentUrl s₁ city) with
    | (Except.error e, s₂) => (Except.error e, s₂)
    | (Except.ok w, s₂) =>
      (Except.ok (CacheData.weather w), setCachedData s₂ now key (CacheData.weather w))

def invalidCoordsErr : JsError := mkErr "Error" "Invalid coordinates"

/- getCurrentWeatherByCoords (weather.js 281-308); coordinates are validated
before the cache is consulted (NaN inputs are outside the rational model). -/
def getCurrentWeatherByCoords (fetch : String → FetchOutcome WeatherData) (s : St) (now : ℤ)
    (lat lon : ℚ) : Except JsError CacheData × St :=
  if |lat| > 90 ∨ |lon| > 180 then (Except.error invalidCoordsErr, s)
  else
    let key := getCacheKey "current" (coordIdent lat lon)
    match getCachedData s now key with
    | (some cd, s₁) => (Except.ok cd, s₁)
    | (none, s₁) =>
      match makeRequest fetch s₁ now (currentCoordsUrl s₁ lat lon) with
      | (Except.error e, s₂) => (Except.error e, s₂)
      | (Except.ok w, s₂) =>
        (Except.ok (CacheData.weather w), setCachedData s₂ now key (CacheData.weather w))

/- getForecast (weather.js 315-337). -/
def getForecast (fetch : String → FetchOutcome ForecastData) (s : St) (now : ℤ)
    (city : String) : Except JsError CacheData × St :=
  let key := getCacheKey "forecast" city
  match getCachedData s now key with
  | (some cd, s₁) => (Except.ok cd, s₁)
  | (none, s₁) =>
    match makeRequest fetch s₁ now (forecastUrl s₁ city) with
    | (Except.error e, s₂) => (Except.error e, s₂)
    | (Except.ok f, s₂) =>
      (Except.ok (CacheData.forecastD f), setCachedData s₂ now key (CacheData.forecastD f))

/- getForecastByCoords (weather.js 345-372). -/
def getForecastByCoords (fetch : String → FetchOutcome ForecastData) (s : St) (now : ℤ)
    (lat lon : ℚ) : Except JsError CacheData × St :=
  if |lat| > 90 ∨ |lon| > 180 then (Except.error invalidCoordsErr, s)
  else
    let key := getCacheKey "forecast" (coordIdent lat lon)
    match getCachedData s now key with
    | (some cd, s₁) => (Except.ok cd, s₁)
    | (none, s₁) =>
      match makeRequest fetch s₁ now (forecastCoordsUrl s₁ lat lon) with
      | (Except.error e, s₂) => (Except.error e, s₂)
      | (Except.ok f, s₂) =>
        (Except.ok (CacheData.forecastD f), setCachedData s₂ now key (CacheData.forecastD f))

/- ===== UV ESTIMATION (weather.js 549-583) ===== -/

/- Math.round: round half toward positive infinity. -/
def jsRound (x : ℚ) : ℤ := Rat.floor (x + 1/2)

/- estimateUVIndex: a pure computation over latitude and the ambient date's
hour and month (the `lon` parameter is declared in the source but unused).
JS double arithmetic is modelled exactly over the rationals. -/
def estimateUVIndex (lat lon : ℚ) (d : JsDate) : ℚ :=
  let hour := d.hour
  let month := d.month
  let absLat := |lat|
  if hour < 6 ∨ hour > 18 then 0
  else
    let baseUV : ℚ := 10 - |(hour : ℚ) - 12| * (3/2)
    let baseUV₁ := baseUV * max (3/10) (1 - (absLat / 90) * (1/2))
    let winterPeak : ℤ := if lat ≥ 0 then 0 else 6
    let monthsFromWinter : ℤ := min |month - winterPeak| (12 - |month - winterPeak|)
    let seasonFactor : ℚ := 1/2 + ((monthsFromWinter : ℚ) / 6) * (1/2)
    let baseUV₂ := baseUV₁ * seasonFactor
    max 0 (min 11 ((jsRound baseUV₂ : ℤ) : ℚ))

/- getUVIndex (weather.js 380-403): no network call is attempted; on a cache
miss it caches and returns `{current:{uvi: estimate}, simulated: true}`. -/
def getUVIndex (s : St) (now : ℤ) (d : JsDate) (lat lon : ℚ) : Except JsError CacheData × St :=
  let key := getCacheKey "uv" (coordIdent lat lon)
  match getCachedData s now key with
  | (some cd, s₁) => (Except.ok cd, s₁)
  | (none, s₁) =>
    let simData := CacheData.uv { uvi := some (estimateUVIndex lat lon d), simulated := true }
    (Except.ok simData, setCachedData s₁ now key simData)

/- The UV leg of the orchestrator, with the optional injected failure from the
environment (the spec's "UV sub-request forced to fail" scenario). -/
def getUVIndexWithFault (env : Env) (s : St) (now : ℤ) (d : JsDate) (lat lon : ℚ) :
    Except JsError CacheData × St :=
  match env.uvFault with
  | some e => (Except.error e, s)
  | none => getUVIndex s now d lat lon

/- ===== ORCHESTRATION (weather.js 410-454) ===== -/

def invalidLocErr : JsError := mkErr "Error" "Invalid location. Please provide city or coordinates."

/- `uvData.current?.uvi ?? null`: optional chaining yields null on any shape
that is not a UV payload. -/
def uviOf : CacheData → Option ℚ
  | CacheData.uv u => u.uvi
  | _ => none

/- `currentWeather.coord.lat` on a payload without `coord` raises a TypeError
inside the try block (unreachable from well-typed cache states). -/
def asWeatherData : CacheData → Except JsError WeatherData
  | CacheData.weather w => Except.ok w
  | _ => Except.error (mkErr "TypeError" "Cannot read properties of undefined")

/- Steps 2-5 of getCompleteWeatherData once a current-weather payload is in
hand.  `Promise.all` on the single JS thread runs the forecast leg up to its
fetch, then the (await-free) UV leg to completion; the UV `.catch` substitutes
`{current:{uvi:null}}`; a forecast failure then rejects the whole operation. -/
def completeFrom (env : Env) (s : St) (now : ℤ) (d : JsDate) (w : WeatherData) :
    Except JsError CompleteWeather × St :=
  let lat := w.coordLat
  let lon := w.coordLon
  match getForecastByCoords env.forecast s now lat lon with
  | (rF, s₂) =>
    match getUVIndexWithFault env s₂ now d lat lon with
    | (rU, s₃) =>
      let uvData : CacheData :=
        match rU with
        | Except.ok cd => cd
        | Except.error _ => CacheData.uv { uvi := none, simulated := false }
      match rF with
      | Except.error e => (Except.error e, s₃)
      | Except.ok f =>
        (Except.ok { current := w, forecast := f, uvi := uviOf uvData,
                     locName := w.name, locCountry := w.country,
                     locLat := lat, locLon := lon }, s₃)

/- getCompleteWeatherData (weather.js 410-454).  The input check mirrors
`!location || ((!location.city) && (!location.lat || !location.lon))`: an
empty city name and zero coordinates are falsy.  The outer catch rethrows the
error unchanged. -/
def getCompleteWeatherData (env : Env) (s : St) (now : ℤ) (d : JsDate) (loc : Location) :
    Except JsError CompleteWeather × St :=
  match loc with
  | Location.city c =>
    if c = "" then (Except.error invalidLocErr, s)
    else
      match getCurrentWeather env.current s now c with
      | (Except.error e, s₁) => (Except.error e, s₁)
      | (Except.ok cd, s₁) =>
        match asWeatherData cd with
        | Except.error e => (Except.error e, s₁)
        | Except.ok w => completeFrom env s₁ now d w
  | Location.coords lat lon =>
    if lat = 0 ∨ lon = 0 then (Except.error invalidLocErr, s)
    else
      match getCurrentWeatherByCoords env.current s now lat lon with
      | (Except.error e, s₁) => (Except.error e, s₁)
      | (Except.ok cd, s₁) =>
        match asWeatherData cd with
        | Except.error e => (Except.error e, s₁)
        | Except.ok w => completeFrom env s₁ now d w

/- ===== CITY SEARCH (weather.js 462-519) ===== -/

/- Formatting of a geocoding row into a CityCandidate; a missing (or falsy)
`state` is `none`. -/
def formatCity (g : GeoCity) : City :=
  { name := g.name, country := g.country, state := g.state, lat := g.lat, lon := g.lon,
    display := g.name ++ (match g.state with | some st => ", " ++ st | none => "") ++ ", " ++ g.country }

/- A cached value under a `cities_` key, as read back by searchCities
(unreachable default for non-city payloads, which only arise in ill-typed
cache states). -/
def citiesOf : CacheData → List City
  | CacheData.cities cs => cs
  | _ => []

/- searchCities (weather.js 462-519).  Queries shorter than 2 characters are
answered locally; an identical query within 2000 ms is answered from the
debounce fields; then the TTL cache; then the network, with any error
converted into an empty list.  The debounce fields are updated on the cache
and network-success paths. -/
def searchCities (fetch : String → FetchOutcome (List GeoCity)) (s : St) (now : ℤ)
    (query : String) (limit : ℕ) : List City × St :=
  let clean := strTrim query
  if clean = "" ∨ clean.length < 2 then ([], s)
  else if clean = s.lastSearchQuery ∧ now - s.lastSearchTime < 2000 then
    (s.lastSearchResults, s)
  else
    let key := getCacheKey "cities" clean
    match getCachedData s now key with
    | (some cd, s₁) =>
      (citiesOf cd, { s₁ with lastSearchQuery := clean, lastSearchTime := now,
                              lastSearchResults := citiesOf cd })
    | (none, s₁) =>
      match makeRequest fetch s₁ now (cityUrl s₁ clean limit) with
      | (Except.error _, s₂) => ([], s₂)
      | (Except.ok gs, s₂) =>
        let cs := gs.map formatCity
        let s₃ := setCachedData s₂ now key (CacheData.cities cs)
        (cs, { s₃ with lastSearchQuery := clean, lastSearchTime := now,
                       lastSearchResults := cs })

/- ===== CONCRETE FIXTURES (used by witnesses and counterexamples) ===== -/

/- The freshly constructed instance (weather.js 8-42) with the defaults the
constructor installs; `requestWindow` is the construction-time clock, taken
here as 0. -/
def st0 : St :=
  { API_KEY := "ecd10e5059b846b4977031d32d044f69",
    BASE_URL := "https://api.openweathermap.org/data/2.5",
    GEOCODING_URL := "https://api.openweathermap.org/geo/1.0",
    CACHE_DURATION := 300000, MAX_CACHE_SIZE := 100, maxRequestsPerMinute := 60,
    windowHostname := "localhost",
    cache := [], requestCount := 0, requestWindow := 0,
    cacheHits := 0, cacheMisses := 0,
    lastSearchQuery := "", lastSearchTime := 0, lastSearchResults := [], fetchLog := [] }

def okResp {α : Type} (a : α) : FetchOutcome α :=
  FetchOutcome.resp
    { ok := true, status := 200, ctJson := true, parseOk := true, parseMsg := "",
      errMessage := none, data := a }

def resp404 {α : Type} (a : α) : FetchOutcome α :=
  FetchOutcome.resp
    { ok := false, status := 404, ctJson := true, parseOk := true, parseMsg := "",
      errMessage := some "city not found", data := a }

def wLondon : WeatherData :=
  { coordLat := 51, coordLon := 2, name := "London", country := "GB", payload := 1 }

def fcLondon : ForecastData := { payload := 2 }

/- Environment in which current weather and forecast succeed while the UV leg
is forced to fail. -/
def envUVFail : Env :=
  { current := fun _ => okResp wLondon, forecast := fun _ => okResp fcLondon,
    uvFault := some (mkErr "Error" "UV service unavailable") }

/- Environment in which the current-weather call returns HTTP 404. -/
def env404 : Env :=
  { current := fun _ => resp404 wLondon, forecast := fun _ => okResp fcLondon,
    uvFault := none }

def dJune : JsDate := { year := 2024, month := 5, day := 15, hour := 12, minute := 0 }

def geoFetch : String → FetchOutcome (List GeoCity) :=
  fun _ => okResp [{ name := "London", country := "GB", state := none, lat := 51, lon := 2 }]

def cityLondon : City :=
  { name := "London", country := "GB", state := none, lat := 51, lon := 2, display := "London, GB" }

/- A two-entry cache at capacity, for the C6 witness. -/
def entryA : CacheEntry := { data := CacheData.forecastD ⟨1⟩, timestamp := 5 }
def entryB : CacheEntry := { data := CacheData.forecastD ⟨2⟩, timestamp := 9 }
def cacheC6 : Cache := [("a", entryA), ("b", entryB)]
def stC6 : St := { st0 with MAX_CACHE_SIZE := 2, cache := cacheC6 }

/- The snapshot produced by the C1 counterexample run. -/
def snapC1 : CompleteWeather :=
  { current := wLondon, forecast := CacheData.forecastD fcLondon, uvi := none,
    locName := "London", locCountry := "GB", locLat := 51, locLon := 2 }

/- A state whose rate window is exhausted (60 requests already made in the
current window). -/
def stRL : St := { st0 with requestCount := 60, requestWindow := 1000000 }

/- The state left by a first searchCities network round trip. -/
def s9a : St := (searchCities geoFetch st0 1000000 "lo" 5).2

/- A state holding a fresh cache entry for every request key used by the C10
witness (entries stored at time 500, consulted at time 1000). -/
def stHit : St :=
  { st0 with cache :=
      [("current_london", ⟨CacheData.weather wLondon, 500⟩),
       ("current_51/1,2/1", ⟨CacheData.weather wLondon, 500⟩),
       ("forecast_london", ⟨CacheData.forecastD fcLondon, 500⟩),
       ("forecast_51/1,2/1", ⟨CacheData.forecastD fcLondon, 500⟩),
       ("cities_lo", ⟨CacheData.cities [cityLondon], 500⟩),
       ("uv_51/1,2/1", ⟨CacheData.uv ⟨some 3, true⟩, 500⟩)] }

/- Iterated checkRateLimit calls at the given times: final state, and whether
every call was permitted. -/
def rateRun (s : St) : List ℤ → St
  | [] => s
  | t :: ts => rateRun (checkRateLimit s t).2 ts

def rateRunOk (s : St) : List ℤ → Bool
  | [] => true
  | t :: ts =>
    match checkRateLimit s t with
    | (Except.ok _, s₁) => rateRunOk s₁ ts
    | (Except.error _, _) => false

/- ===== HELPER LEMMAS ===== -/

theorem mapGet_cons (a : String) (e : CacheEntry) (t : Cache) (k : String) :
    mapGet ((a, e) :: t) k = if a = k then some e else mapGet t k := rfl

theorem mapSet_cons (a : String) (e' : CacheEntry) (t : Cache) (k : String) (e : CacheEntry) :
    mapSet ((a, e') :: t) k e = if a = k then (k, e) :: t else (a, e') :: mapSet t k e := rfl

theorem mapDelete_cons (a : String) (e : CacheEntry) (t : Cache) (k : String) :
    mapDelete ((a, e) :: t) k = if a = k then mapDelete t k else (a, e) :: mapDelete t k := by
  by_cases h : a = k <;> simp [mapDelete, List.filter_cons, h]

theorem mapGet_mapSet_self (m : Cache) (k : String) (e : CacheEntry) :
    mapGet (mapSet m k e) k = some e := by
  induction m with
  | nil => simp [mapSet, mapGet]
  | cons p t ih =>
    obtain ⟨k', e'⟩ := p
    by_cases h : k' = k
    · simp [mapSet_cons, mapGet_cons, h]
    · simp [mapSet_cons, mapGet_cons, h, ih]

theorem mapGet_mapDelete_self (m : Cache) (k : String) :
    mapGet (mapDelete m k) k = none := by
  induction m with
  | nil => rfl
  | cons p t ih =>
    obtain ⟨k', e'⟩ := p
    by_cases h : k' = k
    · simpa [mapDelete_cons, h] using ih
    · simpa [mapDelete_cons, mapGet_cons, h] using ih

theorem getCachedData_hit (s : St) (now : ℤ) (k : String) (e : CacheEntry)
    (hm : mapGet s.cache k = some e) (hv : isCacheValid s now (some e) = true) :
    getCachedData s now k = (some e.data, { s with cacheHits := s.cacheHits + 1 }) := by
  unfold getCachedData
  rw [hm]
  simp [hv]

theorem getCachedData_stale (s : St) (now : ℤ) (k : String) (e : CacheEntry)
    (hm : mapGet s.cache k = some e) (hv : isCacheValid s now (some e) = false) :
    getCachedData s now k =
      (none, { s with cache := mapDelete s.cache k, cacheMisses := s.cacheMisses + 1 }) := by
  unfold getCachedData
  rw [hm]
  simp [hv]

theorem getCachedData_missNone (s : St) (now : ℤ) (k : String)
    (hm : mapGet s.cache k = none) :
    getCachedData s now k = (none, { s with cacheMisses := s.cacheMisses + 1 }) := by
  unfold getCachedData
  rw [hm]

theorem evict_shape (s : St) : ∃ c, evictOldestCacheEntry s = { s with cache := c } := by
  unfold evictOldestCacheEntry
  split
  · split
    · exact ⟨s.cache, rfl⟩
    · exact ⟨_, rfl⟩
  · exact ⟨s.cache, rfl⟩

theorem setCachedData_shape (s : St) (now : ℤ) (k : String) (v : CacheData) :
    ∃ c, setCachedData s now k v = { s with cache := c } ∧
      mapGet c k = some { data := v, timestamp := now } := by
  unfold setCachedData
  obtain ⟨c₁, hc₁⟩ :
      ∃ c₁, (if s.cache.length ≥ s.MAX_CACHE_SIZE then evictOldestCacheEntry s else s) =
        { s with cache := c₁ } := by
    split
    · exact evict_shape s
    · exact ⟨s.cache, rfl⟩
  rw [hc₁]
  exact ⟨mapSet c₁ k { data := v, timestamp := now }, rfl, mapGet_mapSet_self ..⟩

theorem getCachedData_shape (s : St) (now : ℤ) (k : String) :
    ∃ c h m, (getCachedData s now k).2 = { s with cache := c, cacheHits := h, cacheMisses := m } := by
  unfold getCachedData
  split
  · split
    · exact ⟨s.cache, s.cacheHits + 1, s.cacheMisses, rfl⟩
    · exact ⟨_, s.cacheHits, s.cacheMisses + 1, rfl⟩
  · exact ⟨s.cache, s.cacheHits, s.cacheMisses + 1, rfl⟩

theorem pickOlder_cases (a b : String × CacheEntry) :
    pickOlder a b = a ∨ pickOlder a b = b := by
  unfold pickOlder
  split
  · right; rfl
  · left; rfl

theorem pickOlder_le (a b : String × CacheEntry) :
    (pickOlder a b).2.timestamp ≤ a.2.timestamp ∧ (pickOlder a b).2.timestamp ≤ b.2.timestamp := by
  unfold pickOlder
  split
  · next h => exact ⟨le_of_lt h, le_refl _⟩
  · next h => exact ⟨le_refl _, le_of_not_lt h⟩

theorem foldl_pickOlder_mem (t : Cache) (a : String × CacheEntry) :
    t.foldl pickOlder a = a ∨ t.foldl pickOlder a ∈ t := by
  induction t generalizing a with
  | nil => left; rfl
  | cons b t ih =>
    rw [List.foldl_cons]
    rcases ih (pickOlder a b) with h | h
    · rcases pickOlder_cases a b with h2 | h2
      · left; rw [h, h2]
      · right; rw [h, h2]; exact List.mem_cons_self _ _
    · right
      exact List.mem_cons_of_mem _ h

theorem foldl_pickOlder_le (t : Cache) (a : String × CacheEntry) :
    (t.foldl pickOlder a).2.timestamp ≤ a.2.timestamp ∧
    ∀ q ∈ t, (t.foldl pickOlder a).2.timestamp ≤ q.2.timestamp := by
  induction t generalizing a with
  | nil => exact ⟨le_refl _, by simp⟩
  | cons b t ih =>
    obtain ⟨h1, h2⟩ := ih (pickOlder a b)
    rw [List.foldl_cons]
    refine ⟨le_trans h1 (pickOlder_le a b).1, ?_⟩
    intro q hq
    rcases List.mem_cons.mp hq with h3 | hq2
    · rw [h3]; exact le_trans h1 (pickOlder_le a b).2
    · exact h2 q hq2

theorem findOldest_spec (m : Cache) (p : String × CacheEntry)
    (h : findOldest m = some p) :
    p ∈ m ∧ ∀ q ∈ m, p.2.timestamp ≤ q.2.timestamp := by
  cases m with
  | nil => exact absurd h (by simp [findOldest])
  | cons a t =>
    have hp : p = t.foldl pickOlder a := by
      simpa [findOldest] using h.symm
    subst hp
    constructor
    · rcases foldl_pickOlder_mem t a with h | h
      · rw [h]; exact List.mem_cons_self _ _
      · exact List.mem_cons_of_mem _ h
    · intro q hq
      rcases List.mem_cons.mp hq with h3 | hq2
      · rw [h3]; exact (foldl_pickOlder_le t a).1
      · exact (foldl_pickOlder_le t a).2 q hq2

theorem findOldest_some_of_ne_nil (m : Cache) (h : m ≠ []) :
    ∃ p, findOldest m = some p := by
  cases m with
  | nil => exact absurd rfl h
  | cons a t => exact ⟨t.foldl pickOlder a, rfl⟩

theorem mapGet_some_of_mem (m : Cache) (k : String) (e : CacheEntry)
    (h : (k, e) ∈ m) : mapGet m k ≠ none := by
  induction m with
  | nil => simp at h
  | cons p t ih =>
    obtain ⟨k', e'⟩ := p
    rw [mapGet_cons]
    by_cases hk : k' = k
    · simp [hk]
    · rcases List.mem_cons.mp h with heq | hmem
      · injection heq with h1 h2
        exact absurd h1.symm hk
      · simpa [hk] using ih hmem

theorem mapGet_of_mem_nodup (m : Cache) (k : String) (e : CacheEntry)
    (hnd : (m.map Prod.fst).Nodup) (h : (k, e) ∈ m) : mapGet m k = some e := by
  induction m with
  | nil => simp at h
  | cons p t ih =>
    obtain ⟨k', e'⟩ := p
    rw [List.map_cons, List.nodup_cons] at hnd
    rw [mapGet_cons]
    rcases List.mem_cons.mp h with heq | hmem
    · injection heq with h1 h2
      simp [h1.symm, h2.symm]
    · by_cases hk : k' = k
      · exfalso
        apply hnd.1
        rw [hk]
        exact List.mem_map.mpr ⟨(k, e), hmem, rfl⟩
      · simpa [hk] using ih hnd.2 hmem

theorem mapGet_mapDelete_ne (m : Cache) (k k' : String) (h : k' ≠ k) :
    mapGet (mapDelete m k) k' = mapGet m k' := by
  induction m with
  | nil => rfl
  | cons p t ih =>
    obtain ⟨a, e⟩ := p
    rw [mapDelete_cons, mapGet_cons]
    by_cases hk : a = k
    · have ha : ¬a = k' := by rw [hk]; exact fun hh => h hh.symm
      rw [if_pos hk, if_neg ha]
      exact ih
    · rw [if_neg hk, mapGet_cons]
      by_cases ha : a = k'
      · simp [ha]
      · simpa [ha] using ih

theorem mapGet_mapDelete_none (m : Cache) (k k₀ : String) (h : mapGet m k = none) :
    mapGet (mapDelete m k₀) k = none := by
  by_cases hk : k = k₀
  · rw [hk]; exact mapGet_mapDelete_self ..
  · rw [mapGet_mapDelete_ne m k₀ k hk]; exact h

theorem mapGet_mapSet_ne (m : Cache) (k k' : String) (e : CacheEntry) (h : k' ≠ k) :
    mapGet (mapSet m k e) k' = mapGet m k' := by
  induction m with
  | nil =>
    have : ¬k = k' := fun hh => h hh.symm
    simp [mapSet, mapGet_cons, mapGet, this]
  | cons p t ih =>
    obtain ⟨a, e'⟩ := p
    rw [mapSet_cons]
    by_cases hk : a = k
    · have hk2 : ¬k = k' := fun hh => h hh.symm
      have ha : ¬a = k' := by rw [hk]; exact hk2
      simp [hk, mapGet_cons, hk2, ha]
    · rw [if_neg hk, mapGet_cons, mapGet_cons]
      by_cases ha : a = k'
      · simp [ha]
      · simpa [ha] using ih

theorem mapDelete_length_of_mem_nodup (m : Cache) (k : String) (e : CacheEntry)
    (hnd : (m.map Prod.fst).Nodup) (h : (k, e) ∈ m) :
    (mapDelete m k).length + 1 = m.length := by
  induction m with
  | nil => simp at h
  | cons p t ih =>
    obtain ⟨a, e'⟩ := p
    rw [List.map_cons, List.nodup_cons] at hnd
    rw [mapDelete_cons]
    by_cases hk : a = k
    · have hnone : ∀ q ∈ t, (q.1 != k) = true := by
        intro q hq
        have hqk : q.1 ≠ k := by
          intro hqk
          apply hnd.1
          rw [hk]
          exact List.mem_map.mpr ⟨q, hq, hqk⟩
        simpa using hqk
      have hdel : mapDelete t k = t := List.filter_eq_self.mpr hnone
      rw [if_pos hk, hdel]
      simp
    · have hmem : (k, e) ∈ t := by
        rcases List.mem_cons.mp h with heq | hmem
        · injection heq with h1 h2
          exact absurd h1.symm hk
        · exact hmem
      rw [if_neg hk]
      simpa using ih hnd.2 hmem

theorem mapSet_length_of_none (m : Cache) (k : String) (e : CacheEntry)
    (h : mapGet m k = none) : (mapSet m k e).length = m.length + 1 := by
  induction m with
  | nil => rfl
  | cons p t ih =>
    obtain ⟨a, e'⟩ := p
    rw [mapGet_cons] at h
    by_cases hk : a = k
    · simp [hk] at h
    · rw [if_neg hk] at h
      rw [mapSet_cons, if_neg hk]
      simpa using ih h

/- ===== C6 ===== -/

/-- C6: when the cache is at capacity and a new distinct key is inserted via
setCachedData, exactly one entry is evicted — one whose stored timestamp is
minimal (never an entry with a strictly newer timestamp than another surviving
entry), all other entries survive, the new entry is present, and the cache
size stays at the capacity bound.  (Hypotheses: distinct, non-empty keys, as
produced by getCacheKey, and a positive capacity, as forced by the
constructor's `config.MAX_CACHE_SIZE || 100`.) -/
theorem claim_C6 :
    ∀ (s : St) (now : ℤ) (k : String) (v : CacheData),
      s.cache.length = s.MAX_CACHE_SIZE → 0 < s.MAX_CACHE_SIZE →
      (s.cache.map Prod.fst).Nodup → (∀ p ∈ s.cache, p.1 ≠ "") →
      mapGet s.cache k = none →
      (setCachedData s now k v).cache.length = s.MAX_CACHE_SIZE ∧
      mapGet (setCachedData s now k v).cache k = some { data := v, timestamp := now } ∧
      ∃ p ∈ s.cache,
        (∀ q ∈ s.cache, p.2.timestamp ≤ q.2.timestamp) ∧
        mapGet (setCachedData s now k v).cache p.1 = none ∧
        ∀ q ∈ s.cache, q.1 ≠ p.1 → mapGet (setCachedData s now k v).cache q.1 = some q.2 := by
  intro s now k v hlen hpos hnd hne hnew
  have hge : s.cache.length ≥ s.MAX_CACHE_SIZE := hlen.ge
  have hnil : s.cache ≠ [] := by
    intro h
    rw [h] at hlen
    simp at hlen
    omega
  obtain ⟨p, hfind⟩ := findOldest_some_of_ne_nil s.cache hnil
  obtain ⟨hpmem, hpmin⟩ := findOldest_spec s.cache p hfind
  have hpne : p.1 ≠ "" := hne p hpmem
  have hevict : evictOldestCacheEntry s = { s with cache := mapDelete s.cache p.1 } := by
    unfold evictOldestCacheEntry
    rw [hfind]
    simp [hpne]
  have hset : setCachedData s now k v =
      { s with cache := mapSet (mapDelete s.cache p.1) k { data := v, timestamp := now } } := by
    unfold setCachedData
    rw [if_pos hge, hevict]
  have hkp : p.1 ≠ k := by
    intro h
    exact mapGet_some_of_mem s.cache p.1 p.2 (by simpa using hpmem) (h ▸ hnew)
  have hdelnone : mapGet (mapDelete s.cache p.1) k = none :=
    mapGet_mapDelete_none s.cache k p.1 hnew
  refine ⟨?_, ?_, p, hpmem, hpmin, ?_, ?_⟩
  · rw [hset]
    have hdl := mapDelete_length_of_mem_nodup s.cache p.1 p.2 hnd (by simpa using hpmem)
    have hsl := mapSet_length_of_none (mapDelete s.cache p.1) k
      { data := v, timestamp := now } hdelnone
    simp only []
    omega
  · rw [hset]
    exact mapGet_mapSet_self ..
  · rw [hset]
    have h1 := mapGet_mapSet_ne (mapDelete s.cache p.1) k p.1
      { data := v, timestamp := now } hkp
    rw [show ({ s with cache := mapSet (mapDelete s.cache p.1) k { data := v, timestamp := now } } : St).cache =
      mapSet (mapDelete s.cache p.1) k { data := v, timestamp := now } from rfl, h1]
    exact mapGet_mapDelete_self ..
  · intro q hq hqp
    rw [hset]
    have hqk : q.1 ≠ k := by
      intro h
      exact mapGet_some_of_mem s.cache q.1 q.2 (by simpa using hq) (h ▸ hnew)
    have h1 := mapGet_mapSet_ne (mapDelete s.cache p.1) k q.1
      { data := v, timestamp := now } hqk
    have h2 := mapGet_mapDelete_ne s.cache p.1 q.1 hqp
    have h3 := mapGet_of_mem_nodup s.cache q.1 q.2 hnd (by simpa using hq)
    rw [show ({ s with cache := mapSet (mapDelete s.cache p.1) k { data := v, timestamp := now } } : St).cache =
      mapSet (mapDelete s.cache p.1) k { data := v, timestamp := now } from rfl, h1, h2, h3]

/-- Witness for C6: a two-entry cache at capacity 2; inserting a third key
keeps the size at 2, stores the new key, evicts an oldest entry, and keeps
every other entry. -/
theorem claim_C6_witness :
    (setCachedData stC6 20 "c" (CacheData.forecastD ⟨3⟩)).cache.length = stC6.MAX_CACHE_SIZE ∧
    mapGet (setCachedData stC6 20 "c" (CacheData.forecastD ⟨3⟩)).cache "c" =
      some { data := CacheData.forecastD ⟨3⟩, timestamp := 20 } ∧
    ∃ p ∈ stC6.cache,
      (∀ q ∈ stC6.cache, p.2.timestamp ≤ q.2.timestamp) ∧
      mapGet (setCachedData stC6 20 "c" (CacheData.forecastD ⟨3⟩)).cache p.1 = none ∧
      ∀ q ∈ stC6.cache, q.1 ≠ p.1 →
        mapGet (setCachedData stC6 20 "c" (CacheData.forecastD ⟨3⟩)).cache q.1 = some q.2 :=
  claim_C6 stC6 20 "c" (CacheData.forecastD ⟨3⟩) (by decide) (by decide) (by decide)
    (by decide) (by decide)

/- Branch lemmas for checkRateLimit. -/

theorem checkRateLimit_ok_noreset (s : St) (now : ℤ)
    (h1 : ¬now - s.requestWindow > 60000) (h2 : s.requestCount < s.maxRequestsPerMinute) :
    checkRateLimit s now = (Except.ok (), { s with requestCount := s.requestCount + 1 }) := by
  simp only [checkRateLimit, if_neg h1]
  rw [if_neg (by omega : ¬s.requestCount ≥ s.maxRequestsPerMinute)]

theorem checkRateLimit_err_noreset (s : St) (now : ℤ)
    (h1 : ¬now - s.requestWindow > 60000) (h2 : s.requestCount ≥ s.maxRequestsPerMinute) :
    checkRateLimit s now = (Except.error (mkErr "Error" rateLimitMsg), s) := by
  simp only [checkRateLimit, if_neg h1]
  rw [if_pos h2]
  rfl

theorem checkRateLimit_ok_reset (s : St) (now : ℤ)
    (h1 : now - s.requestWindow > 60000) (h2 : 0 < s.maxRequestsPerMinute) :
    checkRateLimit s now =
      (Except.ok (), { s with requestCount := 1, requestWindow := now }) := by
  simp only [checkRateLimit, if_pos h1]
  rw [if_neg (by omega : ¬(0 ≥ s.maxRequestsPerMinute))]

/- The first `count + ts.length ≤ ceiling` calls inside the window all pass,
incrementing the counter and leaving window and ceiling unchanged. -/
theorem rateRun_ok_of_within (ts : List ℤ) : ∀ (s : St),
    (∀ u ∈ ts, u - s.requestWindow ≤ 60000) →
    s.requestCount + ts.length ≤ s.maxRequestsPerMinute →
    rateRunOk s ts = true ∧
    (rateRun s ts).requestCount = s.requestCount + ts.length ∧
    (rateRun s ts).requestWindow = s.requestWindow ∧
    (rateRun s ts).maxRequestsPerMinute = s.maxRequestsPerMinute := by
  induction ts with
  | nil => intro s _ _; exact ⟨rfl, by simp [rateRun], rfl, rfl⟩
  | cons t ts ih =>
    intro s h1 h2
    have ht : ¬t - s.requestWindow > 60000 := by
      have := h1 t (List.mem_cons_self _ _)
      omega
    have hcount : s.requestCount < s.maxRequestsPerMinute := by
      rw [List.length_cons] at h2
      omega
    have hcr := checkRateLimit_ok_noreset s t ht hcount
    have hr1 : ∀ u ∈ ts, u - ({ s with requestCount := s.requestCount + 1 } : St).requestWindow ≤ 60000 := by
      intro u hu
      exact h1 u (List.mem_cons_of_mem _ hu)
    have hr2 : ({ s with requestCount := s.requestCount + 1 } : St).requestCount + ts.length ≤
        ({ s with requestCount := s.requestCount + 1 } : St).maxRequestsPerMinute := by
      rw [List.length_cons] at h2
      simp only []
      omega
    obtain ⟨ha, hb, hc, hd⟩ := ih { s with requestCount := s.requestCount + 1 } hr1 hr2
    refine ⟨?_, ?_, ?_, ?_⟩
    · rw [show rateRunOk s (t :: ts) =
        rateRunOk { s with requestCount := s.requestCount + 1 } ts from by
          simp [rateRunOk, hcr]]
      exact ha
    · rw [show rateRun s (t :: ts) =
        rateRun { s with requestCount := s.requestCount + 1 } ts from by
          simp [rateRun, hcr]]
      rw [hb]
      simp only [List.length_cons]
      omega
    · rw [show rateRun s (t :: ts) =
        rateRun { s with requestCount := s.requestCount + 1 } ts from by
          simp [rateRun, hcr]]
      exact hc
    · rw [show rateRun s (t :: ts) =
        rateRun { s with requestCount := s.requestCount + 1 } ts from by
          simp [rateRun, hcr]]
      exact hd

/- ===== C4 ===== -/

/-- C4: from a fresh window, a rate limiter with ceiling N permits the first
N checkRateLimit calls inside the 60-second window, errors on the (N+1)-th
call still inside the window, and permits a call made after the window has
elapsed, lazily resetting the window start to that call's time and the
counter to 1. -/
theorem claim_C4 :
    ∀ (s : St) (ts : List ℤ) (t t' : ℤ),
      s.requestCount = 0 → 0 < s.maxRequestsPerMinute →
      ts.length = s.maxRequestsPerMinute →
      (∀ u ∈ ts, u - s.requestWindow ≤ 60000) →
      rateRunOk s ts = true ∧
      (t - s.requestWindow ≤ 60000 →
        (checkRateLimit (rateRun s ts) t).1 = Except.error (mkErr "Error" rateLimitMsg)) ∧
      (t' - s.requestWindow > 60000 →
        (checkRateLimit (rateRun s ts) t').1 = Except.ok () ∧
        (checkRateLimit (rateRun s ts) t').2.requestCount = 1 ∧
        (checkRateLimit (rateRun s ts) t').2.requestWindow = t') := by
  intro s ts t t' hc0 hpos hlen hwin
  obtain ⟨ha, hb, hw, hm⟩ := rateRun_ok_of_within ts s hwin (by omega)
  refine ⟨ha, ?_, ?_⟩
  · intro hin
    have h1 : ¬t - (rateRun s ts).requestWindow > 60000 := by rw [hw]; omega
    have h2 : (rateRun s ts).requestCount ≥ (rateRun s ts).maxRequestsPerMinute := by
      rw [hb, hm]; omega
    rw [checkRateLimit_err_noreset _ t h1 h2]
  · intro hout
    have h1 : t' - (rateRun s ts).requestWindow > 60000 := by rw [hw]; omega
    have h2 : 0 < (rateRun s ts).maxRequestsPerMinute := by rw [hm]; omega
    rw [checkRateLimit_ok_reset _ t' h1 h2]
    exact ⟨rfl, rfl, rfl⟩

/-- Witness for C4 with ceiling 3: calls at 10, 20, 30 ms pass, a fourth at
40 ms errors, and a call at 70000 ms (past the window) passes with the counter
reset to 1 and the window restarted. -/
theorem claim_C4_witness :
    rateRunOk { st0 with maxRequestsPerMinute := 3 } [10, 20, 30] = true ∧
    (checkRateLimit (rateRun { st0 with maxRequestsPerMinute := 3 } [10, 20, 30]) 40).1 =
      Except.error (mkErr "Error" rateLimitMsg) ∧
    ((checkRateLimit (rateRun { st0 with maxRequestsPerMinute := 3 } [10, 20, 30]) 70000).1 =
      Except.ok () ∧
     (checkRateLimit (rateRun { st0 with maxRequestsPerMinute := 3 } [10, 20, 30]) 70000).2.requestCount = 1 ∧
     (checkRateLimit (rateRun { st0 with maxRequestsPerMinute := 3 } [10, 20, 30]) 70000).2.requestWindow = 70000) := by
  obtain ⟨h1, h2, h3⟩ := claim_C4 { st0 with maxRequestsPerMinute := 3 } [10, 20, 30] 40 70000
    (by decide) (by decide) (by decide) (by decide)
  exact ⟨h1, h2 (by decide), h3 (by decide)⟩

/- ===== C7 ===== -/

/-- C7: estimateUVIndex is a deterministic function of latitude, the ambient
hour-of-day and the ambient month alone: it ignores its longitude argument and
every other component of the ambient date, so any two invocations agreeing on
the (lat, hour, month) triple return the same number. -/
theorem claim_C7 :
    ∀ (lat lon lon' : ℚ) (d d' : JsDate),
      d.hour = d'.hour → d.month = d'.month →
      estimateUVIndex lat lon d = estimateUVIndex lat lon' d' := by
  intro lat lon lon' d d' h1 h2
  unfold estimateUVIndex
  rw [h1, h2]

/-- Witness for C7: same latitude, hour and month but different longitudes,
years, days and minutes give the same estimate. -/
theorem claim_C7_witness :
    estimateUVIndex 10 3 { year := 2024, month := 5, day := 10, hour := 12, minute := 0 } =
    estimateUVIndex 10 7 { year := 1999, month := 5, day := 2, hour := 12, minute := 45 } :=
  claim_C7 10 3 7 _ _ rfl rfl

/- State-shape lemmas for the request pipeline. -/

theorem checkRateLimit_shape (s : St) (now : ℤ) :
    ∃ c w, (checkRateLimit s now).2 = { s with requestCount := c, requestWindow := w } := by
  simp only [checkRateLimit]
  by_cases h1 : now - s.requestWindow > 60000
  · rw [if_pos h1]
    split
    · exact ⟨0, now, rfl⟩
    · exact ⟨0 + 1, now, rfl⟩
  · rw [if_neg h1]
    split
    · exact ⟨s.requestCount, s.requestWindow, rfl⟩
    · exact ⟨s.requestCount + 1, s.requestWindow, rfl⟩

theorem makeRequest_state {α : Type} (fetch : String → FetchOutcome α) (s : St) (now : ℤ)
    (url : String) : (makeRequest fetch s now url).2 = (makeRequestBody fetch s now url).2 := by
  unfold makeRequest
  rcases hb : makeRequestBody fetch s now url with ⟨r, s₁⟩
  cases r with
  | ok a => rfl
  | error e =>
    show (if e.name = "AbortError" then _ else _ : Except JsError α × St).2 = s₁
    split <;> rfl

theorem makeRequestBody_shape {α : Type} (fetch : String → FetchOutcome α) (s : St) (now : ℤ)
    (url : String) :
    (makeRequestBody fetch s now url).2 = (checkRateLimit s now).2 ∨
    (makeRequestBody fetch s now url).2 =
      { (checkRateLimit s now).2 with
          fetchLog := (checkRateLimit s now).2.fetchLog ++ [url] } := by
  unfold makeRequestBody
  rcases hcr : checkRateLimit s now with ⟨r, s₁⟩
  cases r with
  | error e => simp only [hcr]; left; trivial
  | ok u =>
    simp only [hcr]
    cases hv : validateUrlV1 s₁.windowHostname url with
    | error e => simp only [hv]; left; trivial
    | ok v =>
      simp only [hv]
      split
      · left; trivial
      · right
        rcases hf : fetch url with r | _ | m <;> simp only [hf] <;>
          first
          | trivial
          | rfl
          | (split_ifs <;> first | trivial | rfl)

theorem makeRequest_log {α : Type} (fetch : String → FetchOutcome α) (s : St) (now : ℤ)
    (url : String) :
    (makeRequest fetch s now url).2.fetchLog = s.fetchLog ∨
    (makeRequest fetch s now url).2.fetchLog = s.fetchLog ++ [url] := by
  have h1 := makeRequest_state fetch s now url
  have h2 := makeRequestBody_shape fetch s now url
  obtain ⟨c, w, h3⟩ := checkRateLimit_shape s now
  rcases h2 with h2 | h2
  · left; rw [h1, h2, h3]
  · right; rw [h1, h2, h3]

/- A failing getCurrentWeather leaves the fetch log either untouched (failure
before the network call) or extended by exactly its own current-weather URL. -/
theorem getCurrentWeather_err_log (fetch : String → FetchOutcome WeatherData) (s : St)
    (now : ℤ) (city : String) (e : JsError) (s' : St)
    (h : getCurrentWeather fetch s now city = (Except.error e, s')) :
    s'.fetchLog = s.fetchLog ∨ s'.fetchLog = s.fetchLog ++ [currentUrl s city] := by
  simp only [getCurrentWeather] at h
  rcases hg : getCachedData s now (getCacheKey "current" city) with ⟨ro, s₁⟩
  simp only [hg] at h
  obtain ⟨cc, hh, mm, hshape⟩ := getCachedData_shape s now (getCacheKey "current" city)
  rw [hg] at hshape
  cases ro with
  | some cd => exact absurd h (by simp)
  | none =>
    rcases hm : makeRequest fetch s₁ now (currentUrl s₁ city) with ⟨rm, s₂⟩
    simp only [hm] at h
    cases rm with
    | ok w => exact absurd h (by simp)
    | error e' =>
      have hs : s₂ = s' := congrArg Prod.snd h
      have hs1 : s₁ = { s with cache := cc, cacheHits := hh, cacheMisses := mm } := hshape
      have hlog : s₂.fetchLog = s₁.fetchLog ∨
          s₂.fetchLog = s₁.fetchLog ++ [currentUrl s₁ city] := by
        have h0 := makeRequest_log fetch s₁ now (currentUrl s₁ city)
        rw [hm] at h0
        exact h0
      have hflog : s₁.fetchLog = s.fetchLog := by rw [hs1]
      have hurl : currentUrl s₁ city = currentUrl s city := by rw [hs1]; rfl
      rw [← hs]
      rcases hlog with hl | hl
      · left; rw [hl, hflog]
      · right; rw [hl, hflog, hurl]

/- ===== C2 ===== -/

/-- C2: for a (nonempty) city-name location, if the current-weather call
fails, getCompleteWeatherData fails with exactly that underlying error and the
final state is the state left by the current-weather attempt; the fetch log
gains at most the current-weather URL — no forecast and no UV request is ever
issued. -/
theorem claim_C2 :
    ∀ (env : Env) (s s₁ : St) (now : ℤ) (d : JsDate) (c : String) (e : JsError),
      c ≠ "" →
      getCurrentWeather env.current s now c = (Except.error e, s₁) →
      getCompleteWeatherData env s now d (Location.city c) = (Except.error e, s₁) ∧
      (s₁.fetchLog = s.fetchLog ∨ s₁.fetchLog = s.fetchLog ++ [currentUrl s c]) := by
  intro env s s₁ now d c e hc h1
  refine ⟨?_, getCurrentWeather_err_log env.current s now c e s₁ h1⟩
  simp only [getCompleteWeatherData]
  rw [if_neg hc]
  simp only [h1]

/-- Witness for C2: with a provider that answers the current-weather call with
HTTP 404, the whole operation fails with that call's error (the 404 message as
produced by makeRequest) and the fetch log holds at most the current-weather
URL. -/
theorem claim_C2_witness :
    getCompleteWeatherData env404 st0 1000000 dJune (Location.city "Nowhere123") =
      (Except.error (mkErr "Error" "Weather data request failed: Location not found. Please check the city name and try again."),
       (getCurrentWeather env404.current st0 1000000 "Nowhere123").2) ∧
    ((getCurrentWeather env404.current st0 1000000 "Nowhere123").2.fetchLog = st0.fetchLog ∨
     (getCurrentWeather env404.current st0 1000000 "Nowhere123").2.fetchLog =
       st0.fetchLog ++ [currentUrl st0 "Nowhere123"]) :=
  claim_C2 env404 st0 (getCurrentWeather env404.current st0 1000000 "Nowhere123").2
    1000000 dJune "Nowhere123"
    (mkErr "Error" "Weather data request failed: Location not found. Please check the city name and try again.")
    (by decide) (by decide)

/- ===== C1 ===== -/

/-- C1 counterexample: with the current-weather and forecast legs succeeding
and the UV leg forced to fail, getCompleteWeatherData does not throw, but the
snapshot it returns carries a null UV value — not the estimator's value for
the resolved coordinates and time (which is 7 here) — and has no simulated
field at all, contradicting the claimed estimator substitution. -/
theorem claim_C1_counterexample :
    (getCompleteWeatherData envUVFail st0 1000000 dJune (Location.city "London")).1 =
      Except.ok snapC1 ∧
    snapC1.uvi ≠ some (estimateUVIndex snapC1.locLat snapC1.locLon dJune) :=
  ⟨by decide, by decide⟩

/-- C1 (amended): for every city-name location whose current-weather and
forecast legs succeed, if the UV leg fails the operation does not throw: the
`.catch` handler substitutes `{current:{uvi:null}}`, so the returned snapshot
has a null UV value (not the estimator's), no simulated flag exists on the
combined object, and the current and forecast payloads are the successful
ones. -/
theorem claim_C1 :
    ∀ (env : Env) (s s₁ s₂ : St) (now : ℤ) (d : JsDate) (c : String)
      (w : WeatherData) (cd : CacheData) (e : JsError),
      c ≠ "" →
      env.uvFault = some e →
      getCurrentWeather env.current s now c = (Except.ok (CacheData.weather w), s₁) →
      getForecastByCoords env.forecast s₁ now w.coordLat w.coordLon = (Except.ok cd, s₂) →
      ∃ snap, (getCompleteWeatherData env s now d (Location.city c)).1 = Except.ok snap ∧
        snap.uvi = none ∧ snap.current = w ∧ snap.forecast = cd := by
  intro env s s₁ s₂ now d c w cd e hc hu h1 h2
  simp only [getCompleteWeatherData]
  rw [if_neg hc]
  simp only [h1]
  show ∃ snap, (completeFrom env s₁ now d w).1 = Except.ok snap ∧
    snap.uvi = none ∧ snap.current = w ∧ snap.forecast = cd
  simp only [completeFrom, h2, getUVIndexWithFault, hu]
  exact ⟨_, rfl, rfl, rfl, rfl⟩

/-- Witness for C1's amended statement at the concrete UV-failure run. -/
theorem claim_C1_witness :
    ∃ snap, (getCompleteWeatherData envUVFail st0 1000000 dJune (Location.city "London")).1 =
      Except.ok snap ∧
      snap.uvi = none ∧ snap.current = wLondon ∧ snap.forecast = CacheData.forecastD fcLondon :=
  claim_C1 envUVFail st0 (getCurrentWeather envUVFail.current st0 1000000 "London").2
    (getForecastByCoords envUVFail.forecast
      (getCurrentWeather envUVFail.current st0 1000000 "London").2 1000000 51 2).2
    1000000 dJune "London" wLondon (CacheData.forecastD fcLondon)
    (mkErr "Error" "UV service unavailable")
    (by decide) (by decide) (by decide) (by decide)

/- The only error the first validateUrl can raise is the catch-all format
error. -/
theorem validateUrlV1_err (wh url : String) (e : JsError)
    (h : validateUrlV1 wh url = Except.error e) :
    e = mkErr "Error" "Invalid URL format" := by
  simp only [validateUrlV1] at h
  split at h
  · exact absurd h (by simp)
  · split at h
    · have := congrArg (fun x => match x with
        | Except.error e => e
        | Except.ok _ => mkErr "" "") h
      simpa using this.symm
    · exact absurd h (by simp)

theorem makeRequestBody_rateLimited {α : Type} (fetch : String → FetchOutcome α) (s : St)
    (now : ℤ) (url : String)
    (h1 : ¬now - s.requestWindow > 60000) (h2 : s.requestCount ≥ s.maxRequestsPerMinute) :
    makeRequestBody fetch s now url = (Except.error (mkErr "Error" rateLimitMsg), s) := by
  unfold makeRequestBody
  simp only [checkRateLimit_err_noreset s now h1 h2]

theorem makeRequest_rateLimited {α : Type} (fetch : String → FetchOutcome α) (s : St)
    (now : ℤ) (url : String)
    (h1 : ¬now - s.requestWindow > 60000) (h2 : s.requestCount ≥ s.maxRequestsPerMinute) :
    makeRequest fetch s now url =
      (Except.error (mkErr "Error" ("Weather data request failed: " ++ rateLimitMsg)), s) := by
  unfold makeRequest
  simp only [makeRequestBody_rateLimited fetch s now url h1 h2]
  rw [if_neg (by decide : ¬(mkErr "Error" rateLimitMsg).name = "AbortError")]
  rfl

/- When the rate gate passes, the URL validates and the key check passes, the
body reaches the fetch and pushes the URL onto the log, whatever the network
outcome. -/
theorem makeRequestBody_push {α : Type} (fetch : String → FetchOutcome α) (s s₁ : St)
    (now : ℤ) (url : String)
    (hcr : checkRateLimit s now = (Except.ok (), s₁))
    (hv : validateUrlV1 s₁.windowHostname url = Except.ok ())
    (hk : (strIncludes url "openweathermap.org" &&
           (s₁.API_KEY == "" || s₁.API_KEY == "YOUR_API_KEY_HERE")) = false) :
    (makeRequestBody fetch s now url).2 = { s₁ with fetchLog := s₁.fetchLog ++ [url] } := by
  unfold makeRequestBody
  simp only [hcr, hv, hk]
  rcases hf : fetch url with r | _ | m <;> simp only [hf] <;>
    first
    | trivial
    | rfl
    | (split_ifs <;> first | trivial | rfl)

/- ===== C8 ===== -/

/-- C8 counterexample: in a rate-limited state, searchCities converts the
RateLimitError into the non-error result [] instead of propagating it, and
getCurrentWeather propagates it wrapped — its message carries the added
`Weather data request failed: ` prefix — not unmodified. -/
theorem claim_C8_counterexample :
    (searchCities geoFetch stRL 1000500 "London" 5).1 = ([] : List City) ∧
    (getCurrentWeather (fun _ => okResp wLondon) stRL 1000500 "London").1 =
      Except.error (mkErr "Error" ("Weather data request failed: " ++ rateLimitMsg)) :=
  ⟨by decide, by decide⟩

/-- C8 (amended): rate-limit and URL-validation errors are raised before any
network call — the fetch log does not grow and the state is otherwise the one
the guard left.  But they do not propagate unmodified: makeRequest rethrows
them wrapped with the `Weather data request failed: ` prefix, and searchCities
swallows them entirely, returning an empty city list. -/
theorem claim_C8 :
    (∀ (α : Type) (fetch : String → FetchOutcome α) (s : St) (now : ℤ) (url : String),
       ¬now - s.requestWindow > 60000 → s.requestCount ≥ s.maxRequestsPerMinute →
       makeRequest fetch s now url =
         (Except.error (mkErr "Error" ("Weather data request failed: " ++ rateLimitMsg)), s)) ∧
    (∀ (α : Type) (fetch : String → FetchOutcome α) (s s₁ : St) (now : ℤ) (url : String)
       (e : JsError),
       checkRateLimit s now = (Except.ok (), s₁) →
       validateUrlV1 s₁.windowHostname url = Except.error e →
       makeRequest fetch s now url =
         (Except.error (mkErr "Error" ("Weather data request failed: " ++ e.message)), s₁) ∧
       s₁.fetchLog = s.fetchLog) ∧
    (∀ (fetch : String → FetchOutcome (List GeoCity)) (s : St) (now : ℤ) (q : String)
       (limit : ℕ),
       ¬now - s.requestWindow > 60000 → s.requestCount ≥ s.maxRequestsPerMinute →
       ¬(strTrim q = "" ∨ (strTrim q).length < 2) →
       ¬(strTrim q = s.lastSearchQuery ∧ now - s.lastSearchTime < 2000) →
       (getCachedData s now (getCacheKey "cities" (strTrim q))).1 = none →
       (searchCities fetch s now q limit).1 = ([] : List City) ∧
       (searchCities fetch s now q limit).2.fetchLog = s.fetchLog) := by
  refine ⟨?_, ?_, ?_⟩
  · intro α fetch s now url h1 h2
    exact makeRequest_rateLimited fetch s now url h1 h2
  · intro α fetch s s₁ now url e hcr hv
    obtain ⟨c, w, hsh⟩ := checkRateLimit_shape s now
    rw [hcr] at hsh
    have hs1 : s₁ = { s with requestCount := c, requestWindow := w } := hsh
    have hlog : s₁.fetchLog = s.fetchLog := by rw [hs1]
    refine ⟨?_, hlog⟩
    have he := validateUrlV1_err s₁.windowHostname url e hv
    unfold makeRequest makeRequestBody
    simp only [hcr, hv]
    rw [he]
    rw [if_neg (by decide : ¬(mkErr "Error" "Invalid URL format").name = "AbortError")]
  · intro fetch s now q limit h1 h2 hlen hdeb hmiss
    simp only [searchCities]
    rw [if_neg hlen, if_neg hdeb]
    rcases hgc : getCachedData s now (getCacheKey "cities" (strTrim q)) with ⟨ro, s₁⟩
    rw [hgc] at hmiss
    obtain ⟨cc, hh, mm, hshape⟩ := getCachedData_shape s now (getCacheKey "cities" (strTrim q))
    rw [hgc] at hshape
    have hs1 : s₁ = { s with cache := cc, cacheHits := hh, cacheMisses := mm } := hshape
    have hro : ro = none := hmiss
    subst hro
    simp only [hgc]
    have h1' : ¬now - s₁.requestWindow > 60000 := by rw [hs1]; exact h1
    have h2' : s₁.requestCount ≥ s₁.maxRequestsPerMinute := by rw [hs1]; exact h2
    simp only [makeRequest_rateLimited fetch s₁ now (cityUrl s₁ (strTrim q) limit) h1' h2']
    refine ⟨trivial, ?_⟩
    rw [hs1]

/-- Witness for C8: the three amended facts at concrete inputs — a wrapped
rate-limit error from makeRequest, a wrapped validation error from makeRequest
on a disallowed host, and searchCities returning [] under rate limiting with
its fetch log unchanged. -/
theorem claim_C8_witness :
    (makeRequest (fun _ => okResp wLondon) stRL 1000500 "u" =
      (Except.error (mkErr "Error" ("Weather data request failed: " ++ rateLimitMsg)), stRL)) ∧
    (makeRequest (fun _ => okResp wLondon) st0 1000500 "https://evil.example/x" =
      (Except.error (mkErr "Error" ("Weather data request failed: " ++ "Invalid URL format")),
       (checkRateLimit st0 1000500).2) ∧
     (checkRateLimit st0 1000500).2.fetchLog = st0.fetchLog) ∧
    ((searchCities geoFetch stRL 1000500 "London" 5).1 = ([] : List City) ∧
     (searchCities geoFetch stRL 1000500 "London" 5).2.fetchLog = stRL.fetchLog) := by
  have h := claim_C8
  refine ⟨h.1 WeatherData (fun _ => okResp wLondon) stRL 1000500 "u" (by decide) (by decide),
          ?_, h.2.2 geoFetch stRL 1000500 "London" 5 (by decide) (by decide) (by decide)
            (by decide) (by decide)⟩
  have h2 := h.2.1 WeatherData (fun _ => okResp wLondon) st0 (checkRateLimit st0 1000500).2
    1000500 "https://evil.example/x" (mkErr "Error" "Invalid URL format")
    (by decide) (by decide)
  exact h2

/- searchCities path lemmas. -/

theorem searchCities_debounce (fetch : String → FetchOutcome (List GeoCity)) (s : St)
    (now : ℤ) (q : String) (limit : ℕ)
    (hlen : ¬(strTrim q = "" ∨ (strTrim q).length < 2))
    (hq : strTrim q = s.lastSearchQuery) (ht : now - s.lastSearchTime < 2000) :
    searchCities fetch s now q limit = (s.lastSearchResults, s) := by
  simp only [searchCities]
  rw [if_neg hlen, if_pos ⟨hq, ht⟩]

theorem searchCities_hit (fetch : String → FetchOutcome (List GeoCity)) (s : St)
    (now : ℤ) (q : String) (limit : ℕ) (cd : CacheData)
    (hlen : ¬(strTrim q = "" ∨ (strTrim q).length < 2))
    (hdeb : ¬(strTrim q = s.lastSearchQuery ∧ now - s.lastSearchTime < 2000))
    (h : (getCachedData s now (getCacheKey "cities" (strTrim q))).1 = some cd) :
    searchCities fetch s now q limit =
      (citiesOf cd,
       { (getCachedData s now (getCacheKey "cities" (strTrim q))).2 with
           lastSearchQuery := strTrim q, lastSearchTime := now,
           lastSearchResults := citiesOf cd }) := by
  simp only [searchCities]
  rw [if_neg hlen, if_neg hdeb]
  rcases hgc : getCachedData s now (getCacheKey "cities" (strTrim q)) with ⟨ro, s₁⟩
  rw [hgc] at h
  have hro : ro = some cd := h
  subst hro
  simp only [hgc]

theorem setCachedData_fetchLog (s : St) (now : ℤ) (k : String) (v : CacheData) :
    (setCachedData s now k v).fetchLog = s.fetchLog := by
  obtain ⟨c, hc, _⟩ := setCachedData_shape s now k v
  rw [hc]

theorem searchCities_miss_push (fetch : String → FetchOutcome (List GeoCity)) (s : St)
    (now : ℤ) (q : String) (limit : ℕ)
    (hlen : ¬(strTrim q = "" ∨ (strTrim q).length < 2))
    (hdeb : ¬(strTrim q = s.lastSearchQuery ∧ now - s.lastSearchTime < 2000))
    (hmiss : (getCachedData s now (getCacheKey "cities" (strTrim q))).1 = none)
    (hpass : (now - s.requestWindow > 60000 ∧ 0 < s.maxRequestsPerMinute) ∨
             (¬now - s.requestWindow > 60000 ∧ s.requestCount < s.maxRequestsPerMinute))
    (hv : validateUrlV1 s.windowHostname (cityUrl s (strTrim q) limit) = Except.ok ())
    (hk : (strIncludes (cityUrl s (strTrim q) limit) "openweathermap.org" &&
           (s.API_KEY == "" || s.API_KEY == "YOUR_API_KEY_HERE")) = false) :
    (searchCities fetch s now q limit).2.fetchLog =
      s.fetchLog ++ [cityUrl s (strTrim q) limit] := by
  simp only [searchCities]
  rw [if_neg hlen, if_neg hdeb]
  rcases hgc : getCachedData s now (getCacheKey "cities" (strTrim q)) with ⟨ro, s₁⟩
  rw [hgc] at hmiss
  have hro : ro = none := hmiss
  subst hro
  obtain ⟨cc, hh, mm, hshape⟩ := getCachedData_shape s now (getCacheKey "cities" (strTrim q))
  rw [hgc] at hshape
  have hs1 : s₁ = { s with cache := cc, cacheHits := hh, cacheMisses := mm } := hshape
  have hurl : cityUrl s₁ (strTrim q) limit = cityUrl s (strTrim q) limit := by rw [hs1]; rfl
  have hcr : ∃ s₂, checkRateLimit s₁ now = (Except.ok (), s₂) ∧
      s₂.fetchLog = s₁.fetchLog ∧
      s₂.windowHostname = s₁.windowHostname ∧ s₂.API_KEY = s₁.API_KEY := by
    rcases hpass with ⟨ha, hb⟩ | ⟨ha, hb⟩
    · have ha' : now - s₁.requestWindow > 60000 := by rw [hs1]; exact ha
      have hb' : 0 < s₁.maxRequestsPerMinute := by rw [hs1]; exact hb
      exact ⟨_, checkRateLimit_ok_reset s₁ now ha' hb', rfl, rfl, rfl⟩
    · have ha' : ¬now - s₁.requestWindow > 60000 := by rw [hs1]; exact ha
      have hb' : s₁.requestCount < s₁.maxRequestsPerMinute := by rw [hs1]; exact hb
      exact ⟨_, checkRateLimit_ok_noreset s₁ now ha' hb', rfl, rfl, rfl⟩
  obtain ⟨s₂, hcr, hl2, hw2, hk2⟩ := hcr
  have hv' : validateUrlV1 s₂.windowHostname (cityUrl s₁ (strTrim q) limit) = Except.ok () := by
    rw [hw2, hurl, hs1]
    exact hv
  have hk' : (strIncludes (cityUrl s₁ (strTrim q) limit) "openweathermap.org" &&
      (s₂.API_KEY == "" || s₂.API_KEY == "YOUR_API_KEY_HERE")) = false := by
    rw [hk2, hurl, hs1]
    exact hk
  have hpush := makeRequestBody_push fetch s₁ s₂ now (cityUrl s₁ (strTrim q) limit) hcr hv' hk'
  have hstate := makeRequest_state fetch s₁ now (cityUrl s₁ (strTrim q) limit)
  rcases hmr : makeRequest fetch s₁ now (cityUrl s₁ (strTrim q) limit) with ⟨rm, s₃⟩
  rw [hmr] at hstate
  have hs3 : s₃.fetchLog = s₂.fetchLog ++ [cityUrl s₁ (strTrim q) limit] := by
    have : s₃ = (makeRequestBody fetch s₁ now (cityUrl s₁ (strTrim q) limit)).2 := hstate
    rw [this, hpush]
  have hfinal : s₃.fetchLog = s.fetchLog ++ [cityUrl s (strTrim q) limit] := by
    rw [hs3, hl2, hurl]
    rw [hs1]
  cases rm with
  | error e =>
    simp only [hgc, hmr]
    exact hfinal
  | ok gs =>
    simp only [hgc, hmr]
    rw [show ({ setCachedData s₃ now (getCacheKey "cities" (strTrim q))
        (CacheData.cities (gs.map formatCity)) with
        lastSearchQuery := strTrim q, lastSearchTime := now,
        lastSearchResults := gs.map formatCity } : St).fetchLog =
      (setCachedData s₃ now (getCacheKey "cities" (strTrim q))
        (CacheData.cities (gs.map formatCity))).fetchLog from rfl]
    rw [setCachedData_fetchLog]
    exact hfinal

/- ===== C9 ===== -/

/-- C9 counterexample: two searchCities calls with the same query, 3000 ms
apart — a gap longer than both the claimed 300 ms debounce window and the
2000 ms window actually coded — make one outbound request in total, not two:
the second call is served by the TTL cache, whose entry is still fresh. -/
theorem claim_C9_counterexample :
    (searchCities geoFetch st0 1000000 "lo" 5).2.fetchLog.length = 1 ∧
    (searchCities geoFetch (searchCities geoFetch st0 1000000 "lo" 5).2 1003000 "lo" 5).2.fetchLog.length = 1 ∧
    ¬((1003000 : ℤ) - 1000000 < 2000) :=
  ⟨by decide, by decide, by decide⟩

/-- C9 (amended): (i) an identical normalized query re-issued within the
debounce window (2000 ms in the code, so in particular within 300 ms) is
answered from the debounce fields with the state unchanged — no new request;
(ii) past the debounce window, while the TTL cache still holds a fresh entry
for the query, the call is answered from the cache with the fetch log
unchanged — still no new request; (iii) a second outbound request happens
exactly when the cache no longer holds a fresh entry (miss or expired), the
rate gate passes and the URL validates: then the fetch log grows by the
geocoding URL. -/
theorem claim_C9 :
    (∀ (fetch : String → FetchOutcome (List GeoCity)) (s : St) (now : ℤ) (q : String)
       (limit : ℕ),
       ¬(strTrim q = "" ∨ (strTrim q).length < 2) →
       strTrim q = s.lastSearchQuery → now - s.lastSearchTime < 2000 →
       searchCities fetch s now q limit = (s.lastSearchResults, s)) ∧
    (∀ (fetch : String → FetchOutcome (List GeoCity)) (s : St) (now : ℤ) (q : String)
       (limit : ℕ) (cd : CacheData),
       ¬(strTrim q = "" ∨ (strTrim q).length < 2) →
       ¬(strTrim q = s.lastSearchQuery ∧ now - s.lastSearchTime < 2000) →
       (getCachedData s now (getCacheKey "cities" (strTrim q))).1 = some cd →
       (searchCities fetch s now q limit).1 = citiesOf cd ∧
       (searchCities fetch s now q limit).2.fetchLog = s.fetchLog) ∧
    (∀ (fetch : String → FetchOutcome (List GeoCity)) (s : St) (now : ℤ) (q : String)
       (limit : ℕ),
       ¬(strTrim q = "" ∨ (strTrim q).length < 2) →
       ¬(strTrim q = s.lastSearchQuery ∧ now - s.lastSearchTime < 2000) →
       (getCachedData s now (getCacheKey "cities" (strTrim q))).1 = none →
       ((now - s.requestWindow > 60000 ∧ 0 < s.maxRequestsPerMinute) ∨
        (¬now - s.requestWindow > 60000 ∧ s.requestCount < s.maxRequestsPerMinute)) →
       validateUrlV1 s.windowHostname (cityUrl s (strTrim q) limit) = Except.ok () →
       (strIncludes (cityUrl s (strTrim q) limit) "openweathermap.org" &&
        (s.API_KEY == "" || s.API_KEY == "YOUR_API_KEY_HERE")) = false →
       (searchCities fetch s now q limit).2.fetchLog =
         s.fetchLog ++ [cityUrl s (strTrim q) limit]) := by
  refine ⟨searchCities_debounce, ?_, searchCities_miss_push⟩
  intro fetch s now q limit cd hlen hdeb h
  rw [searchCities_hit fetch s now q limit cd hlen hdeb h]
  obtain ⟨cc, hh, mm, hshape⟩ := getCachedData_shape s now (getCacheKey "cities" (strTrim q))
  rw [hshape]
  exact ⟨rfl, rfl⟩

/-- Witness for C9: a debounced repeat 1000 ms after a first search returns
the previous results with the state unchanged; a repeat 3000 ms after is
served from the still-fresh cache with no new request; and a search on a
cold cache issues exactly one request. -/
theorem claim_C9_witness :
    searchCities geoFetch s9a 1001000 "lo" 5 = (s9a.lastSearchResults, s9a) ∧
    ((searchCities geoFetch s9a 1003000 "lo" 5).1 = citiesOf (CacheData.cities [cityLondon]) ∧
     (searchCities geoFetch s9a 1003000 "lo" 5).2.fetchLog = s9a.fetchLog) ∧
    (searchCities geoFetch st0 1000000 "lo" 5).2.fetchLog =
      st0.fetchLog ++ [cityUrl st0 (strTrim "lo") 5] := by
  have h := claim_C9
  refine ⟨h.1 geoFetch s9a 1001000 "lo" 5 (by decide) (by decide) (by decide),
          h.2.1 geoFetch s9a 1003000 "lo" 5 (CacheData.cities [cityLondon])
            (by decide) (by decide) (by decide),
          h.2.2 geoFetch st0 1000000 "lo" 5 (by decide) (by decide) (by decide)
            (by decide) (by decide) (by decide)⟩

/- Cache-hit behaviour of each request operation. -/

theorem getCurrentWeather_hit (fetch : String → FetchOutcome WeatherData) (s : St) (now : ℤ)
    (city : String) (cd : CacheData)
    (h : (getCachedData s now (getCacheKey "current" city)).1 = some cd) :
    getCurrentWeather fetch s now city =
      (Except.ok cd, (getCachedData s now (getCacheKey "current" city)).2) := by
  simp only [getCurrentWeather]
  rcases hgc : getCachedData s now (getCacheKey "current" city) with ⟨ro, s₁⟩
  rw [hgc] at h
  have hro : ro = some cd := h
  subst hro
  simp only [hgc]

theorem getCurrentWeatherByCoords_hit (fetch : String → FetchOutcome WeatherData) (s : St)
    (now : ℤ) (lat lon : ℚ) (cd : CacheData)
    (hvalid : ¬(|lat| > 90 ∨ |lon| > 180))
    (h : (getCachedData s now (getCacheKey "current" (coordIdent lat lon))).1 = some cd) :
    getCurrentWeatherByCoords fetch s now lat lon =
      (Except.ok cd, (getCachedData s now (getCacheKey "current" (coordIdent lat lon))).2) := by
  simp only [getCurrentWeatherByCoords]
  rw [if_neg hvalid]
  rcases hgc : getCachedData s now (getCacheKey "current" (coordIdent lat lon)) with ⟨ro, s₁⟩
  rw [hgc] at h
  have hro : ro = some cd := h
  subst hro
  simp only [hgc]

theorem getForecast_hit (fetch : String → FetchOutcome ForecastData) (s : St) (now : ℤ)
    (city : String) (cd : CacheData)
    (h : (getCachedData s now (getCacheKey "forecast" city)).1 = some cd) :
    getForecast fetch s now city =
      (Except.ok cd, (getCachedData s now (getCacheKey "forecast" city)).2) := by
  simp only [getForecast]
  rcases hgc : getCachedData s now (getCacheKey "forecast" city) with ⟨ro, s₁⟩
  rw [hgc] at h
  have hro : ro = some cd := h
  subst hro
  simp only [hgc]

theorem getForecastByCoords_hit (fetch : String → FetchOutcome ForecastData) (s : St)
    (now : ℤ) (lat lon : ℚ) (cd : CacheData)
    (hvalid : ¬(|lat| > 90 ∨ |lon| > 180))
    (h : (getCachedData s now (getCacheKey "forecast" (coordIdent lat lon))).1 = some cd) :
    getForecastByCoords fetch s now lat lon =
      (Except.ok cd, (getCachedData s now (getCacheKey "forecast" (coordIdent lat lon))).2) := by
  simp only [getForecastByCoords]
  rw [if_neg hvalid]
  rcases hgc : getCachedData s now (getCacheKey "forecast" (coordIdent lat lon)) with ⟨ro, s₁⟩
  rw [hgc] at h
  have hro : ro = some cd := h
  subst hro
  simp only [hgc]

theorem getUVIndex_hit (s : St) (now : ℤ) (d : JsDate) (lat lon : ℚ) (cd : CacheData)
    (h : (getCachedData s now (getCacheKey "uv" (coordIdent lat lon))).1 = some cd) :
    getUVIndex s now d lat lon =
      (Except.ok cd, (getCachedData s now (getCacheKey "uv" (coordIdent lat lon))).2) := by
  simp only [getUVIndex]
  rcases hgc : getCachedData s now (getCacheKey "uv" (coordIdent lat lon)) with ⟨ro, s₁⟩
  rw [hgc] at h
  have hro : ro = some cd := h
  subst hro
  simp only [hgc]

/- ===== C10 ===== -/

/-- C10: every request operation (getCurrentWeather, getCurrentWeatherByCoords,
getForecast, getForecastByCoords, searchCities, getUVIndex), when the cache
holds a fresh entry for its request key, returns the cached value, issues no
network request (the fetch log is unchanged) and leaves the rate-limiter
fields requestCount and requestWindow untouched.  (The coordinate operations
are taken on coordinates that pass their range validation, and searchCities on
a well-formed query outside its debounce path, since those checks precede the
cache read in the source.) -/
theorem claim_C10 :
    (∀ (fetch : String → FetchOutcome WeatherData) (s : St) (now : ℤ) (city : String)
       (cd : CacheData),
       (getCachedData s now (getCacheKey "current" city)).1 = some cd →
       (getCurrentWeather fetch s now city).1 = Except.ok cd ∧
       (getCurrentWeather fetch s now city).2.requestCount = s.requestCount ∧
       (getCurrentWeather fetch s now city).2.requestWindow = s.requestWindow ∧
       (getCurrentWeather fetch s now city).2.fetchLog = s.fetchLog) ∧
    (∀ (fetch : String → FetchOutcome WeatherData) (s : St) (now : ℤ) (lat lon : ℚ)
       (cd : CacheData),
       ¬(|lat| > 90 ∨ |lon| > 180) →
       (getCachedData s now (getCacheKey "current" (coordIdent lat lon))).1 = some cd →
       (getCurrentWeatherByCoords fetch s now lat lon).1 = Except.ok cd ∧
       (getCurrentWeatherByCoords fetch s now lat lon).2.requestCount = s.requestCount ∧
       (getCurrentWeatherByCoords fetch s now lat lon).2.requestWindow = s.requestWindow ∧
       (getCurrentWeatherByCoords fetch s now lat lon).2.fetchLog = s.fetchLog) ∧
    (∀ (fetch : String → FetchOutcome ForecastData) (s : St) (now : ℤ) (city : String)
       (cd : CacheData),
       (getCachedData s now (getCacheKey "forecast" city)).1 = some cd →
       (getForecast fetch s now city).1 = Except.ok cd ∧
       (getForecast fetch s now city).2.requestCount = s.requestCount ∧
       (getForecast fetch s now city).2.requestWindow = s.requestWindow ∧
       (getForecast fetch s now city).2.fetchLog = s.fetchLog) ∧
    (∀ (fetch : String → FetchOutcome ForecastData) (s : St) (now : ℤ) (lat lon : ℚ)
       (cd : CacheData),
       ¬(|lat| > 90 ∨ |lon| > 180) →
       (getCachedData s now (getCacheKey "forecast" (coordIdent lat lon))).1 = some cd →
       (getForecastByCoords fetch s now lat lon).1 = Except.ok cd ∧
       (getForecastByCoords fetch s now lat lon).2.requestCount = s.requestCount ∧
       (getForecastByCoords fetch s now lat lon).2.requestWindow = s.requestWindow ∧
       (getForecastByCoords fetch s now lat lon).2.fetchLog = s.fetchLog) ∧
    (∀ (fetch : String → FetchOutcome (List GeoCity)) (s : St) (now : ℤ) (q : String)
       (limit : ℕ) (cd : CacheData),
       ¬(strTrim q = "" ∨ (strTrim q).length < 2) →
       ¬(strTrim q = s.lastSearchQuery ∧ now - s.lastSearchTime < 2000) →
       (getCachedData s now (getCacheKey "cities" (strTrim q))).1 = some cd →
       (searchCities fetch s now q limit).1 = citiesOf cd ∧
       (searchCities fetch s now q limit).2.requestCount = s.requestCount ∧
       (searchCities fetch s now q limit).2.requestWindow = s.requestWindow ∧
       (searchCities fetch s now q limit).2.fetchLog = s.fetchLog) ∧
    (∀ (s : St) (now : ℤ) (d : JsDate) (lat lon : ℚ) (cd : CacheData),
       (getCachedData s now (getCacheKey "uv" (coordIdent lat lon))).1 = some cd →
       (getUVIndex s now d lat lon).1 = Except.ok cd ∧
       (getUVIndex s now d lat lon).2.requestCount = s.requestCount ∧
       (getUVIndex s now d lat lon).2.requestWindow = s.requestWindow ∧
       (getUVIndex s now d lat lon).2.fetchLog = s.fetchLog) := by
  refine ⟨?_, ?_, ?_, ?_, ?_, ?_⟩
  · intro fetch s now city cd h
    rw [getCurrentWeather_hit fetch s now city cd h]
    obtain ⟨cc, hh, mm, hshape⟩ := getCachedData_shape s now (getCacheKey "current" city)
    rw [hshape]
    exact ⟨rfl, rfl, rfl, rfl⟩
  · intro fetch s now lat lon cd hvalid h
    rw [getCurrentWeatherByCoords_hit fetch s now lat lon cd hvalid h]
    obtain ⟨cc, hh, mm, hshape⟩ :=
      getCachedData_shape s now (getCacheKey "current" (coordIdent lat lon))
    rw [hshape]
    exact ⟨rfl, rfl, rfl, rfl⟩
  · intro fetch s now city cd h
    rw [getForecast_hit fetch s now city cd h]
    obtain ⟨cc, hh, mm, hshape⟩ := getCachedData_shape s now (getCacheKey "forecast" city)
    rw [hshape]
    exact ⟨rfl, rfl, rfl, rfl⟩
  · intro fetch s now lat lon cd hvalid h
    rw [getForecastByCoords_hit fetch s now lat lon cd hvalid h]
    obtain ⟨cc, hh, mm, hshape⟩ :=
      getCachedData_shape s now (getCacheKey "forecast" (coordIdent lat lon))
    rw [hshape]
    exact ⟨rfl, rfl, rfl, rfl⟩
  · intro fetch s now q limit cd hlen hdeb h
    rw [searchCities_hit fetch s now q limit cd hlen hdeb h]
    obtain ⟨cc, hh, mm, hshape⟩ := getCachedData_shape s now (getCacheKey "cities" (strTrim q))
    rw [hshape]
    exact ⟨rfl, rfl, rfl, rfl⟩
  · intro s now d lat lon cd h
    rw [getUVIndex_hit s now d lat lon cd h]
    obtain ⟨cc, hh, mm, hshape⟩ := getCachedData_shape s now (getCacheKey "uv" (coordIdent lat lon))
    rw [hshape]
    exact ⟨rfl, rfl, rfl, rfl⟩

/-- Witness for C10: a state with fresh entries for all six request keys; each
operation returns its cached payload with the rate-limiter fields and fetch
log untouched. -/
theorem claim_C10_witness :
    ((getCurrentWeather (fun _ => okResp wLondon) stHit 1000 "London").1 =
       Except.ok (CacheData.weather wLondon) ∧
     (getCurrentWeather (fun _ => okResp wLondon) stHit 1000 "London").2.requestCount = stHit.requestCount ∧
     (getCurrentWeather (fun _ => okResp wLondon) stHit 1000 "London").2.requestWindow = stHit.requestWindow ∧
     (getCurrentWeather (fun _ => okResp wLondon) stHit 1000 "London").2.fetchLog = stHit.fetchLog) ∧
    ((getCurrentWeatherByCoords (fun _ => okResp wLondon) stHit 1000 51 2).1 =
       Except.ok (CacheData.weather wLondon) ∧
     (getCurrentWeatherByCoords (fun _ => okResp wLondon) stHit 1000 51 2).2.requestCount = stHit.requestCount) ∧
    ((getForecast (fun _ => okResp fcLondon) stHit 1000 "London").1 =
       Except.ok (CacheData.forecastD fcLondon)) ∧
    ((getForecastByCoords (fun _ => okResp fcLondon) stHit 1000 51 2).1 =
       Except.ok (CacheData.forecastD fcLondon)) ∧
    ((searchCities geoFetch stHit 1000 "lo" 5).1 = citiesOf (CacheData.cities [cityLondon]) ∧
     (searchCities geoFetch stHit 1000 "lo" 5).2.fetchLog = stHit.fetchLog) ∧
    ((getUVIndex stHit 1000 dJune 51 2).1 = Except.ok (CacheData.uv ⟨some 3, true⟩) ∧
     (getUVIndex stHit 1000 dJune 51 2).2.requestCount = stHit.requestCount) := by
  have h := claim_C10
  refine ⟨h.1 (fun _ => okResp wLondon) stHit 1000 "London" (CacheData.weather wLondon) (by decide),
          ?_, ?_, ?_, ?_, ?_⟩
  · have h2 := h.2.1 (fun _ => okResp wLondon) stHit 1000 51 2 (CacheData.weather wLondon)
      (by decide) (by decide)
    exact ⟨h2.1, h2.2.1⟩
  · exact (h.2.2.1 (fun _ => okResp fcLondon) stHit 1000 "London" (CacheData.forecastD fcLondon)
      (by decide)).1
  · exact (h.2.2.2.1 (fun _ => okResp fcLondon) stHit 1000 51 2 (CacheData.forecastD fcLondon)
      (by decide) (by decide)).1
  · have h5 := h.2.2.2.2.1 geoFetch stHit 1000 "lo" 5 (CacheData.cities [cityLondon])
      (by decide) (by decide) (by decide)
    exact ⟨h5.1, h5.2.2.2⟩
  · have h6 := h.2.2.2.2.2 stHit 1000 dJune 51 2 (CacheData.uv ⟨some 3, true⟩) (by decide)
    exact ⟨h6.1, h6.2.1⟩

/- ===== C3 ===== -/

/-- C3 counterexample: the first validateUrl (weather.js 627-655) accepts an
http URL whose host is in the allow-list — it checks only the host and a few
suspicious substrings, never the scheme — contradicting the claim that the
validator fails on the http scheme. -/
theorem claim_C3_counterexample :
    parseURL "http://api.openweathermap.org/data/2.5/weather?q=London" =
      some { protocol := "http:", hostname := "api.openweathermap.org" } ∧
    validateUrlV1 "localhost" "http://api.openweathermap.org/data/2.5/weather?q=London" =
      Except.ok () := by
  exact ⟨by decide, by decide⟩

/-- C3 amended: the second validateUrl (weather.js 988-1008) has the claimed
behaviour — it succeeds exactly on https URLs whose host is
api.openweathermap.org or openweathermap.org, and fails on every unparseable
URL.  The first validateUrl (627-655) enforces only the host allow-list and
suspicious substrings: it rejects a disallowed host such as
https://evil.example but accepts an allowed host over plain http; it does
accept the https provider URL. -/
theorem claim_C3 :
    (∀ (url : String) (u : URLParts), parseURL url = some u →
       (validateUrlV2 url = Except.ok () ↔
         (u.protocol = "https:" ∧
          (u.hostname = "api.openweathermap.org" ∨ u.hostname = "openweathermap.org")))) ∧
    (∀ url : String, parseURL url = none → ∃ e, validateUrlV2 url = Except.error e) ∧
    validateUrlV1 "localhost" "https://evil.example/steal" =
      Except.error (mkErr "Error" "Invalid URL format") ∧
    validateUrlV1 "localhost" "https://api.openweathermap.org/data/2.5/weather?q=London&appid=k&units=metric" =
      Except.ok () := by
  refine ⟨?_, ?_, by decide, by decide⟩
  · intro url u hp
    simp only [validateUrlV2, hp]
    by_cases hh : u.hostname = "api.openweathermap.org" ∨ u.hostname = "openweathermap.org"
    · have hc : (["api.openweathermap.org", "openweathermap.org"].contains u.hostname) = true := by
        rcases hh with h | h <;> simp [h]
      by_cases hs : u.protocol = "https:"
      · simp [hc, hs, hh]
      · rcases hh with h | h <;> simp [hc, hs, h]
    · have hc : (["api.openweathermap.org", "openweathermap.org"].contains u.hostname) = false := by
        rcases not_or.mp hh with ⟨h1, h2⟩
        simp [h1, h2]
      simp [hc, hh]
  · intro url hp
    simp only [validateUrlV2, hp]
    exact ⟨_, rfl⟩

/-- Witness for C3: the second validateUrl accepts the https provider URL and
rejects a relative (unparseable) URL. -/
theorem claim_C3_witness :
    validateUrlV2 "https://api.openweathermap.org/data/2.5/weather" = Except.ok () ∧
    (∃ e, validateUrlV2 "/api/weather" = Except.error e) := by
  have h := claim_C3
  exact ⟨(h.1 "https://api.openweathermap.org/data/2.5/weather"
            { protocol := "https:", hostname := "api.openweathermap.org" } (by decide)).mpr
            (by decide),
         h.2.1 "/api/weather" (by decide)⟩

/- ===== C5 ===== -/

/-- C5: for every cache key k and value v, setCachedData(k, v) immediately
followed by getCachedData(k) returns v (given a positive TTL and a nonzero —
i.e. truthy — clock); and once more than CACHE_DURATION has elapsed since the
entry for k was stored, getCachedData(k) returns null and removes the stale
entry from the cache table. -/
theorem claim_C5 :
    (∀ (s : St) (now : ℤ) (k : String) (v : CacheData),
       0 < s.CACHE_DURATION → now ≠ 0 →
       (getCachedData (setCachedData s now k v) now k).1 = some v) ∧
    (∀ (s : St) (now : ℤ) (k : String) (e : CacheEntry),
       mapGet s.cache k = some e → now - e.timestamp > s.CACHE_DURATION →
       (getCachedData s now k).1 = none ∧
       mapGet (getCachedData s now k).2.cache k = none) := by
  constructor
  · intro s now k v hDur hNow
    obtain ⟨c, hc, hm⟩ := setCachedData_shape s now k v
    have hv : isCacheValid { s with cache := c } now
        (some { data := v, timestamp := now }) = true := by
      simp [isCacheValid, hNow, hDur]
    have h := getCachedData_hit { s with cache := c } now k
      { data := v, timestamp := now } hm hv
    rw [hc, h]
  · intro s now k e hm hexp
    have hv : isCacheValid s now (some e) = false := by
      have h1 : ¬(now - e.timestamp < s.CACHE_DURATION) := by linarith
      simp [isCacheValid, h1]
    have h := getCachedData_stale s now k e hm hv
    rw [h]
    exact ⟨rfl, mapGet_mapDelete_self s.cache k⟩

/-- Witness for C5 at concrete inputs: a value stored at time 7 is returned at
time 7, and an entry stored at time 7 is a dropped miss at time 400007 with
the default five-minute TTL. -/
theorem claim_C5_witness :
    ((getCachedData (setCachedData st0 7 "k" (CacheData.forecastD ⟨3⟩)) 7 "k").1 =
       some (CacheData.forecastD ⟨3⟩)) ∧
    ((getCachedData { st0 with cache := [("k", { data := CacheData.forecastD ⟨3⟩, timestamp := 7 })] }
        400007 "k").1 = none ∧
     mapGet (getCachedData { st0 with cache := [("k", { data := CacheData.forecastD ⟨3⟩, timestamp := 7 })] }
        400007 "k").2.cache "k" = none) := by
  refine ⟨claim_C5.1 st0 7 "k" (CacheData.forecastD ⟨3⟩) (by decide) (by decide),
          claim_C5.2 _ 400007 "k" { data := CacheData.forecastD ⟨3⟩, timestamp := 7 }
            (by decide) (by decide)⟩
